import Mathlib

/-!
# X-ray emitter serial protocol (emitter.h / emitter.cpp)

A shallow embedding of the class Emitter: the request frame built by
writeAndRead, the four commands commandS / commandP / commandN / commandF with
their response checks, the connection flag and the heartbeat timer.

Conventions.
* A QByteArray is a list of octets, each a natural number in 0..255.
* Reading an element of a QByteArray (operator[], at) yields a plain char,
  which the usual arithmetic conversions promote to int.  Whether plain char
  is signed is fixed by the compiler, not by the source, so it is a parameter
  signedChar of every function that reads one (true for the x86 and x64
  compilers of Windows, where the serial port is named COM3 as in the
  constructor, and of Linux).
* quint8 and quint16 arithmetic is arithmetic on Nat or Int followed by an
  explicit reduction modulo 256 or 65536.
* What the serial port returns from readAll is an input of each exchange.
* qDebug output is kept as a list of messages in the state.
-/

namespace XRay

/-- Octets held by a QByteArray, each in 0..255. -/
abbrev QByteArray := List Nat

/-- Every element of the array is an octet. -/
def IsBytes (d : QByteArray) : Prop := ∀ b ∈ d, b < 256

instance (d : QByteArray) : Decidable (IsBytes d) := by
  unfold IsBytes; infer_instance

/-- Beginning of the parcel: const quint8 STARTBYTE = 0x40. -/
def STARTBYTE : Nat := 0x40

/-- Emitter ID: const quint8 DEV = 0. -/
def DEV : Nat := 0

/-- Commands sent to the emitter: enum class Command : quint8. -/
inductive Command where
  | S
  | P
  | N
  | F
deriving DecidableEq, Repr

/-- Underlying quint8 value of a Command enumerator. -/
def Command.code : Command → Nat
  | .S => 0x53
  | .P => 0x50
  | .N => 0x4e
  | .F => 0x46

/-- Emitter messages: enum class MessageCommandS : quint8. -/
inductive MessageCommandS where
  | OK
  | XRAY_ON
  | XRAY_STARTING
  | XRAY_TRAIN
  | COOLING
deriving DecidableEq, Repr

/-- Enumerator of MessageCommandS selected by the switch for a quint8 value;
none when no case label matches. -/
def MessageCommandS.ofCode (b : Nat) : Option MessageCommandS :=
  if b = 0x00 then some .OK
  else if b = 0x01 then some .XRAY_ON
  else if b = 0x02 then some .XRAY_STARTING
  else if b = 0x03 then some .XRAY_TRAIN
  else if b = 0x04 then some .COOLING
  else none

/-- Emitter errors: enum class ErrorCommandS : quint8. -/
inductive ErrorCommandS where
  | NO_ERROR
  | XRAY_CONTROL_ERROR
  | MODE_ERROR
  | VOLTAGE_ERROR
  | CURRENT_ERROR
  | PROTECTIVE_BOX_ERROR
  | LOW_SUPPLY_VOLTAGE
  | DISCONNECTION
  | OVERHEAT
deriving DecidableEq, Repr

/-- Enumerator of ErrorCommandS selected by the switch for a quint8 value;
none when no case label matches. -/
def ErrorCommandS.ofCode (b : Nat) : Option ErrorCommandS :=
  if b = 0x00 then some .NO_ERROR
  else if b = 0x01 then some .XRAY_CONTROL_ERROR
  else if b = 0x02 then some .MODE_ERROR
  else if b = 0x03 then some .VOLTAGE_ERROR
  else if b = 0x04 then some .CURRENT_ERROR
  else if b = 0x05 then some .PROTECTIVE_BOX_ERROR
  else if b = 0x06 then some .LOW_SUPPLY_VOLTAGE
  else if b = 0x07 then some .DISCONNECTION
  else if b = 0x08 then some .OVERHEAT
  else none

/-- Lines written through qDebug, one constructor per statement of the source. -/
inductive Msg where
  | emitterConnected
  | differentDevice
  | portNotConnected
  | crcDoesNotMatch (crc last : Nat)
  | answerUnexpected
  | message (m : MessageCommandS)
  | error (err : ErrorCommandS)
  | data (volt curr workTime coolTime : Nat)
  | xrayIncluded
  | xrayTurnedOff
deriving DecidableEq, Repr

/-- Value of an octet read as a plain char and promoted to int. -/
def charToInt (signedChar : Bool) (b : Nat) : Int :=
  if signedChar && decide (128 ≤ b) then (b : Int) - 256 else (b : Int)

/-- Conversion of an int to quint8. -/
def asQuint8 (x : Int) : Nat := (x % 256).toNat

/-- Conversion of an int to quint16. -/
def asQuint16 (x : Int) : Nat := (x % 65536).toNat

/-- One pass of the payload loop of writeAndRead:
crc += sentData[5 + i] = m[i]. -/
def payloadStep (signedChar : Bool) (m : List Nat) (st : QByteArray × Nat) (i : Nat) :
    QByteArray × Nat :=
  let b := m.getD i 0 % 256
  (st.1.set (5 + i) b, asQuint8 ((st.2 : Int) + charToInt signedChar b))

/-- The array sentData that writeAndRead builds and writes.  The pointer m is
none for nullptr.  resize leaves the new bytes unspecified; they are taken as 0
here, and every one of them is overwritten whenever m is not null or y is 0. -/
def buildRequest (signedChar : Bool) (com : Command) (y1 y2 : Nat) (m : Option (List Nat)) :
    QByteArray :=
  let y1 := y1 % 256
  let y2 := y2 % 256
  let y := (y2 * 256 + y1) % 65536
  let sentData : QByteArray := List.replicate (6 + y) 0
  let sentData := sentData.set 0 STARTBYTE
  let sentData := sentData.set 1 DEV
  let crc : Nat := 0
  let sentData := sentData.set 2 com.code
  let crc := asQuint8 ((crc : Int) + charToInt signedChar com.code)
  let sentData := sentData.set 3 y1
  let crc := asQuint8 ((crc : Int) + charToInt signedChar y1)
  let sentData := sentData.set 4 y2
  let crc := asQuint8 ((crc : Int) + charToInt signedChar y2)
  let st : QByteArray × Nat :=
    match m with
    | some buf =>
      if y ≠ 0 then (List.range y).foldl (payloadStep signedChar buf) (sentData, crc)
      else (sentData, crc)
    | none => (sentData, crc)
  st.1.set (5 + y) st.2

/-- The heartbeat timer m_pTimerCheckConnection. -/
structure QTimer where
  interval : Nat
  active : Bool
deriving DecidableEq, Repr

/-- The serial port m_pSerialPort: whether it is open, the arrays written to it
(oldest first) and the number of readAll calls made on it. -/
structure QSerialPort where
  isOpen : Bool
  written : List QByteArray
  reads : Nat
deriving DecidableEq, Repr

/-- State of an Emitter object, with the qDebug output so far. -/
structure Emitter where
  m_pSerialPort : QSerialPort
  m_isConnected : Bool
  m_pTimerCheckConnection : QTimer
  debug : List Msg
deriving DecidableEq, Repr

/-- The four values commandP decodes from an accepted response. -/
structure Received where
  receivedVolt : Nat
  receivedCurr : Nat
  receivedWorkTime : Nat
  receivedCoolTime : Nat
deriving DecidableEq, Repr

namespace Emitter

/-- Append lines to the qDebug output. -/
def qDebug (e : Emitter) (msgs : List Msg) : Emitter :=
  { e with debug := e.debug ++ msgs }

/-- Emitter::isConnected. -/
def isConnected (e : Emitter) : Bool := e.m_isConnected

/-- Emitter::writeAndRead.  The array incoming is what the port holds for
readAll after the waits.  A port that is not open accepts no write and
readAll on it returns the empty array. -/
def writeAndRead (signedChar : Bool) (e : Emitter) (com : Command) (y1 y2 : Nat)
    (m : Option (List Nat)) (incoming : QByteArray) : Emitter × QByteArray :=
  let sentData := buildRequest signedChar com y1 y2 m
  let port := e.m_pSerialPort
  if port.isOpen then
    ({ e with m_pSerialPort :=
        { port with written := port.written ++ [sentData], reads := port.reads + 1 } },
      incoming)
  else
    ({ e with m_pSerialPort := { port with reads := port.reads + 1 } }, [])

end Emitter

/-- The checksum loop run on a response:
for (int i = 1; i < size - 1; ++i) crc += receivedData[i]. -/
def receivedCrc (signedChar : Bool) (receivedData : QByteArray) : Nat :=
  (List.range' 1 (receivedData.length - 2)).foldl
    (fun crc i => asQuint8 ((crc : Int) + charToInt signedChar (receivedData.getD i 0))) 0

/-- The trailing byte of a response as the source reads it:
static_cast<quint8>(receivedData[size - 1]). -/
def trailingByte (signedChar : Bool) (receivedData : QByteArray) : Nat :=
  asQuint8 (charToInt signedChar (receivedData.getD (receivedData.length - 1) 0))

/-- The qDebug line of the checksum comparison, if any. -/
def crcWarning (signedChar : Bool) (receivedData : QByteArray) : List Msg :=
  let crc := receivedCrc signedChar receivedData
  if crc ≠ trailingByte signedChar receivedData then
    [Msg.crcDoesNotMatch crc (trailingByte signedChar receivedData)]
  else []

/-- The condition shared by the four commands:
receivedData[0] == STARTBYTE && static_cast<Command>(receivedData.at(2)) == com
&& receivedData[3] == len && receivedData[4] == 0. -/
def headerMatches (signedChar : Bool) (receivedData : QByteArray) (com : Command) (len : Nat) :
    Bool :=
  decide (charToInt signedChar (receivedData.getD 0 0) = (STARTBYTE : Int)) &&
  decide (asQuint8 (charToInt signedChar (receivedData.getD 2 0)) = com.code) &&
  decide (charToInt signedChar (receivedData.getD 3 0) = (len : Int)) &&
  decide (charToInt signedChar (receivedData.getD 4 0) = 0)

/-- The qDebug lines of the two switch statements of commandS. -/
def statusLines (signedChar : Bool) (receivedData : QByteArray) : List Msg :=
  ((MessageCommandS.ofCode (asQuint8 (charToInt signedChar (receivedData.getD 5 0)))).map
      Msg.message).toList ++
  ((ErrorCommandS.ofCode (asQuint8 (charToInt signedChar (receivedData.getD 6 0)))).map
      Msg.error).toList

/-- Decoding of a word from two chars: quint16 w = lo + hi * 256. -/
def decodeWord (signedChar : Bool) (receivedData : QByteArray) (i : Nat) : Nat :=
  asQuint16 (charToInt signedChar (receivedData.getD i 0) +
    charToInt signedChar (receivedData.getD (i + 1) 0) * 256)

/-- The array m of commandP: low byte of each word first. -/
def parameterBytes (volt curr workTime coolTime : Nat) : List Nat :=
  [ (volt - (volt / 256) * 256) % 256, (volt / 256) % 256,
    (curr - (curr / 256) * 256) % 256, (curr / 256) % 256,
    (workTime - (workTime / 256) * 256) % 256, (workTime / 256) % 256,
    (coolTime - (coolTime / 256) * 256) % 256, (coolTime / 256) % 256 ]

namespace Emitter

/-- Emitter::commandS, the status request. -/
def commandS (signedChar : Bool) (e : Emitter) (incoming : QByteArray) : Emitter × Bool :=
  let (e, receivedData) := e.writeAndRead signedChar Command.S 0 0 none incoming
  if receivedData.length = 8 then
    let e := e.qDebug (crcWarning signedChar receivedData)
    if headerMatches signedChar receivedData Command.S 2 then
      (e.qDebug (statusLines signedChar receivedData), true)
    else (e, false)
  else (e.qDebug [Msg.answerUnexpected], false)

/-- Emitter::commandP, the command to set parameters.  The arguments are
quint16 values.  The second component is the four locals receivedVolt,
receivedCurr, receivedWorkTime, receivedCoolTime when the branch that computes
them is taken. -/
def commandP (signedChar : Bool) (e : Emitter) (volt curr workTime coolTime : Nat)
    (incoming : QByteArray) : Emitter × Option Received :=
  let m := parameterBytes volt curr workTime coolTime
  let (e, receivedData) := e.writeAndRead signedChar Command.P 8 0 (some m) incoming
  if receivedData.length = 14 then
    let e := e.qDebug (crcWarning signedChar receivedData)
    if headerMatches signedChar receivedData Command.P 8 then
      let receivedVolt := decodeWord signedChar receivedData 5
      let receivedCurr := decodeWord signedChar receivedData 7
      let receivedWorkTime := decodeWord signedChar receivedData 9
      let receivedCoolTime := decodeWord signedChar receivedData 11
      (e.qDebug [Msg.data receivedVolt receivedCurr receivedWorkTime receivedCoolTime],
        some ⟨receivedVolt, receivedCurr, receivedWorkTime, receivedCoolTime⟩)
    else (e, none)
  else (e.qDebug [Msg.answerUnexpected], none)

/-- Emitter::commandN, switching the X-ray on. -/
def commandN (signedChar : Bool) (e : Emitter) (incoming : QByteArray) : Emitter :=
  let (e, receivedData) := e.writeAndRead signedChar Command.N 0 0 none incoming
  if receivedData.length = 6 then
    let e := e.qDebug (crcWarning signedChar receivedData)
    if headerMatches signedChar receivedData Command.N 0 then
      let e := e.qDebug [Msg.xrayIncluded]
      { e with m_pTimerCheckConnection := { e.m_pTimerCheckConnection with active := true } }
    else e
  else e.qDebug [Msg.answerUnexpected]

/-- Emitter::commandF, switching the X-ray off. -/
def commandF (signedChar : Bool) (e : Emitter) (incoming : QByteArray) : Emitter :=
  let (e, receivedData) := e.writeAndRead signedChar Command.F 0 0 none incoming
  if receivedData.length = 6 then
    let e := e.qDebug (crcWarning signedChar receivedData)
    if headerMatches signedChar receivedData Command.F 0 then
      let e := e.qDebug [Msg.xrayTurnedOff]
      { e with m_pTimerCheckConnection := { e.m_pTimerCheckConnection with active := false } }
    else e
  else e.qDebug [Msg.answerUnexpected]

/-- Conversion of an int argument to a quint16 parameter. -/
def intToQuint16 (x : Int) : Nat := asQuint16 x

/-- Emitter::setFeatures.  The int arguments are converted to the quint16
parameters of commandP at the call. -/
def setFeatures (signedChar : Bool) (e : Emitter) (voltage current workTime coolTime : Int)
    (incoming : QByteArray) : Emitter :=
  if e.isConnected then
    (e.commandP signedChar (intToQuint16 voltage) (intToQuint16 current)
      (intToQuint16 workTime) (intToQuint16 coolTime) incoming).1
  else e

/-- Emitter::turnOnXRay. -/
def turnOnXRay (signedChar : Bool) (e : Emitter) (incoming : QByteArray) : Emitter :=
  if e.isConnected then e.commandN signedChar incoming else e

/-- Emitter::turnOffXRay. -/
def turnOffXRay (signedChar : Bool) (e : Emitter) (incoming : QByteArray) : Emitter :=
  if e.isConnected then e.commandF signedChar incoming else e

/-- Emitter::connectToEmitter.  The flag openOk is the result of
m_pSerialPort->open(QSerialPort::ReadWrite). -/
def connectToEmitter (signedChar : Bool) (e : Emitter) (openOk : Bool)
    (incoming : QByteArray) : Emitter :=
  if openOk then
    let e := { e with m_pSerialPort := { e.m_pSerialPort with isOpen := true } }
    let (e, ok) := e.commandS signedChar incoming
    let e := { e with m_isConnected := ok }
    if ok then e.qDebug [Msg.emitterConnected] else e.qDebug [Msg.differentDevice]
  else
    let e := e.qDebug [Msg.portNotConnected]
    { e with m_isConnected := false }

/-- The lambda connected to QTimer::timeout: it calls commandS and drops the
result. -/
def onTimeout (signedChar : Bool) (e : Emitter) (incoming : QByteArray) : Emitter :=
  (e.commandS signedChar incoming).1

/-- A tick of the heartbeat timer: the timeout signal is emitted only while the
timer is active. -/
def heartbeatTick (signedChar : Bool) (e : Emitter) (incoming : QByteArray) : Emitter :=
  if e.m_pTimerCheckConnection.active then e.onTimeout signedChar incoming else e

/-- The interval given to m_pTimerCheckConnection->setInterval, in ms. -/
def heartbeatInterval : Nat := 1000

/-- Emitter::Emitter.  The port and the timer are created (port closed,
timer inactive), the interval is set, then connectToEmitter runs.
m_isConnected has no initialiser; connectToEmitter assigns it on every path. -/
def construct (signedChar : Bool) (openOk : Bool) (incoming : QByteArray) : Emitter :=
  let e : Emitter :=
    { m_pSerialPort := { isOpen := false, written := [], reads := 0 }
      m_isConnected := false
      m_pTimerCheckConnection := { interval := 0, active := false }
      debug := [] }
  let e := { e with m_pTimerCheckConnection :=
    { e.m_pTimerCheckConnection with interval := heartbeatInterval } }
  e.connectToEmitter signedChar openOk incoming

end Emitter

/-- What can happen to an Emitter after construction: a call of one of the
three public slots, or a tick of the heartbeat timer. -/
inductive Call where
  | setFeatures (voltage current workTime coolTime : Int)
  | turnOnXRay
  | turnOffXRay
  | tick
deriving DecidableEq, Repr

namespace Emitter

/-- Effect of one call, given what the port holds for readAll if the call
makes an exchange. -/
def step (signedChar : Bool) (e : Emitter) (c : Call) (incoming : QByteArray) : Emitter :=
  match c with
  | .setFeatures voltage current workTime coolTime =>
    e.setFeatures signedChar voltage current workTime coolTime incoming
  | .turnOnXRay => e.turnOnXRay signedChar incoming
  | .turnOffXRay => e.turnOffXRay signedChar incoming
  | .tick => e.heartbeatTick signedChar incoming

/-- Effect of a sequence of calls, each paired with the response the port would
deliver to it. -/
def run (signedChar : Bool) (e : Emitter) : List (Call × QByteArray) → Emitter
  | [] => e
  | (c, incoming) :: rest => run signedChar (e.step signedChar c incoming) rest

end Emitter

/-- The device's host timeout in ms: the emitter switches the X-ray off when
no status request reaches it for more than one second. -/
def hostTimeoutMs : Nat := 1000

/-! ## Arithmetic of char and quint8 -/

/-- Adding a char into a quint8 accumulator adds its octet modulo 256, whether
or not plain char is signed. -/
theorem asQuint8_add_char (sc : Bool) (c b : Nat) :
    asQuint8 ((c : Int) + charToInt sc b) = (c + b) % 256 := by
  unfold asQuint8 charToInt
  cases sc
  · simp; omega
  · simp; split <;> omega

/-- Casting a char to quint8 gives back its octet. -/
theorem asQuint8_char (sc : Bool) (b : Nat) (hb : b < 256) :
    asQuint8 (charToInt sc b) = b := by
  unfold asQuint8 charToInt
  cases sc
  · simp; omega
  · simp; split <;> omega

/-- After k passes of the payload loop the array keeps its length, holds the
first k buffer bytes at indices 5 .. 5 + k - 1 and is otherwise as before, and
the accumulator has gained the sum of those bytes modulo 256. -/
theorem payload_fold (sc : Bool) (buf : List Nat) (hb : IsBytes buf) (sd : QByteArray)
    (crc : Nat) (hc : crc < 256) (k : Nat) (hk : k ≤ buf.length) :
    ((List.range k).foldl (payloadStep sc buf) (sd, crc)).1.length = sd.length ∧
    (∀ j, ((List.range k).foldl (payloadStep sc buf) (sd, crc)).1[j]? =
      if 5 ≤ j ∧ j < 5 + k ∧ j < sd.length then buf[j - 5]? else sd[j]?) ∧
    ((List.range k).foldl (payloadStep sc buf) (sd, crc)).2 = (crc + (buf.take k).sum) % 256 := by
  induction k with
  | zero =>
    refine ⟨rfl, ?_, ?_⟩
    · intro j
      have : ¬ (5 ≤ j ∧ j < 5 + 0 ∧ j < sd.length) := by omega
      simp [this]
    · simp; omega
  | succ k ih =>
    obtain ⟨h1, h2, h3⟩ := ih (by omega)
    have hklt : k < buf.length := by omega
    have hbk : buf[k] < 256 := hb _ (List.getElem_mem hklt)
    have hget : buf.getD k 0 % 256 = buf[k] := by
      simp [List.getD_eq_getElem?_getD, List.getElem?_eq_getElem hklt]
      omega
    rw [List.range_succ, List.foldl_append]
    simp only [List.foldl_cons, List.foldl_nil, payloadStep]
    rw [hget]
    refine ⟨by simp [h1], ?_, ?_⟩
    · intro j
      rw [List.getElem?_set, h1, h2 j]
      by_cases hj : 5 + k = j
      · subst hj
        by_cases hl : 5 + k < sd.length
        · simp [hl, List.getElem?_eq_getElem hklt]
        · have : ¬ (5 ≤ 5 + k ∧ 5 + k < 5 + (k + 1) ∧ 5 + k < sd.length) := by omega
          have h4 : ¬ (5 ≤ 5 + k ∧ 5 + k < 5 + k ∧ 5 + k < sd.length) := by omega
          simp [hl]
          omega
      · simp only [hj, if_false]
        by_cases hc1 : 5 ≤ j ∧ j < 5 + k ∧ j < sd.length
        · have : 5 ≤ j ∧ j < 5 + (k + 1) ∧ j < sd.length := by omega
          simp [hc1, this]
        · have : ¬ (5 ≤ j ∧ j < 5 + (k + 1) ∧ j < sd.length) := by omega
          simp [hc1, this]
    · rw [h3, asQuint8_add_char sc _ _, List.take_succ, List.getElem?_eq_getElem hklt]
      simp only [Option.toList, List.sum_append, List.sum_cons, List.sum_nil]
      omega


/-- The guard y && m of writeAndRead: for y = 0 the loop would make no pass. -/
theorem fold_range_guard {α : Type} (f : α → Nat → α) (init : α) (y : Nat) :
    (if y ≠ 0 then (List.range y).foldl f init else init) = (List.range y).foldl f init := by
  by_cases h0 : y = 0
  · simp [h0]
  · simp [h0]

/-- Every command byte is an octet. -/
theorem code_lt (com : Command) : com.code < 256 := by
  cases com <;> decide

/-- The frame writeAndRead builds for a payload of at most 65535 octets. -/
theorem buildRequest_eq (sc : Bool) (com : Command) (payload : List Nat)
    (hn : payload.length < 65536) (hb : IsBytes payload) :
    buildRequest sc com (payload.length % 256) (payload.length / 256) (some payload) =
      [STARTBYTE, DEV, com.code, payload.length % 256, payload.length / 256] ++ payload ++
        [(com.code + payload.length % 256 + payload.length / 256 + payload.sum) % 256] := by
  have hy : (payload.length / 256 % 256 * 256 + payload.length % 256 % 256) % 65536
      = payload.length := by omega
  unfold buildRequest
  simp only [hy]
  generalize hsd : ((((List.replicate (6 + payload.length) 0).set 0 STARTBYTE).set 1 DEV).set 2
    com.code).set 3 (payload.length % 256 % 256) = sd3
  rw [fold_range_guard, asQuint8_add_char, asQuint8_add_char, asQuint8_add_char]
  have hcrc : (((0 + com.code) % 256 + payload.length % 256 % 256) % 256 +
      payload.length / 256 % 256) % 256 =
      (com.code + payload.length % 256 + payload.length / 256) % 256 := by
    omega
  rw [hcrc]
  obtain ⟨h1, h2, h3⟩ := payload_fold sc payload hb (sd3.set 4 (payload.length / 256 % 256))
    ((com.code + payload.length % 256 + payload.length / 256) % 256) (Nat.mod_lt _ (by decide))
    payload.length (le_refl _)
  have hlen : (sd3.set 4 (payload.length / 256 % 256)).length = 6 + payload.length := by
    subst hsd; simp
  clear hcrc
  have hsum : ((com.code + payload.length % 256 + payload.length / 256) % 256 +
      (List.take payload.length payload).sum) % 256 =
      (com.code + payload.length % 256 + payload.length / 256 + payload.sum) % 256 := by
    rw [List.take_length]; omega
  have hfive : ∀ (a b c d e : Nat) (l : List Nat) (k : Nat),
      (a :: b :: c :: d :: e :: l)[5 + k]? = l[k]? := by
    intro a b c d e l k
    rw [show 5 + k = k + 1 + 1 + 1 + 1 + 1 by omega]
    simp only [List.getElem?_cons_succ]
  apply List.ext_getElem?
  intro i
  rw [List.getElem?_set, h1, h2 i, h3, hlen, hsum]
  simp only [List.cons_append, List.nil_append]
  by_cases hi : 5 + payload.length = i
  · subst hi
    rw [hfive, List.getElem?_append_right (le_refl _)]
    simp
  · simp only [hi, if_false]
    by_cases hi2 : 5 ≤ i ∧ i < 5 + payload.length ∧ i < 6 + payload.length
    · simp only [hi2, and_self, if_true]
      obtain ⟨k, rfl⟩ : ∃ k, i = 5 + k := ⟨i - 5, by omega⟩
      have hk : k < payload.length := by omega
      rw [hfive, List.getElem?_append_left hk]
      simp
    · simp only [hi2, if_false]
      by_cases hi3 : i < 5
      · subst hsd
        clear h1 h2 h3 hlen hsum hfive hy
        have h256 : payload.length / 256 % 256 = payload.length / 256 := by omega
        interval_cases i <;> simp [List.getElem?_set, List.getElem?_replicate, h256] <;> omega
      · obtain ⟨k, rfl⟩ : ∃ k, i = 5 + k := ⟨i - 5, by omega⟩
        rw [hfive, List.getElem?_eq_none (by omega), List.getElem?_eq_none (by simp; omega)]


/-! ## Effects of writeAndRead and commandS on the state -/

namespace Emitter

/-- What a command sees as receivedData. -/
theorem writeAndRead_snd (sc : Bool) (e : Emitter) (com : Command) (y1 y2 : Nat)
    (m : Option (List Nat)) (incoming : QByteArray) :
    (e.writeAndRead sc com y1 y2 m incoming).2 =
      if e.m_pSerialPort.isOpen then incoming else [] := by
  by_cases h : e.m_pSerialPort.isOpen = true <;> simp [writeAndRead, h]

/-- An exchange leaves the connection flag alone. -/
theorem writeAndRead_isConnected (sc : Bool) (e : Emitter) (com : Command) (y1 y2 : Nat)
    (m : Option (List Nat)) (incoming : QByteArray) :
    (e.writeAndRead sc com y1 y2 m incoming).1.m_isConnected = e.m_isConnected := by
  by_cases h : e.m_pSerialPort.isOpen = true <;> simp [writeAndRead, h]

/-- An exchange leaves the timer alone. -/
theorem writeAndRead_timer (sc : Bool) (e : Emitter) (com : Command) (y1 y2 : Nat)
    (m : Option (List Nat)) (incoming : QByteArray) :
    (e.writeAndRead sc com y1 y2 m incoming).1.m_pTimerCheckConnection =
      e.m_pTimerCheckConnection := by
  by_cases h : e.m_pSerialPort.isOpen = true <;> simp [writeAndRead, h]

/-- On an open port an exchange appends the request frame to what was written. -/
theorem writeAndRead_written (sc : Bool) (e : Emitter) (com : Command) (y1 y2 : Nat)
    (m : Option (List Nat)) (incoming : QByteArray) (ho : e.m_pSerialPort.isOpen = true) :
    (e.writeAndRead sc com y1 y2 m incoming).1.m_pSerialPort.written =
      e.m_pSerialPort.written ++ [buildRequest sc com y1 y2 m] := by
  unfold writeAndRead
  simp [ho]

/-- The result of commandS: size 8 and the header condition. -/
theorem commandS_snd (sc : Bool) (e : Emitter) (incoming : QByteArray) :
    (e.commandS sc incoming).2 =
      (decide ((e.writeAndRead sc Command.S 0 0 none incoming).2.length = 8) &&
        headerMatches sc (e.writeAndRead sc Command.S 0 0 none incoming).2 Command.S 2) := by
  unfold commandS
  simp only []
  split <;> rename_i h
  · split <;> simp_all
  · simp [h]

theorem commandS_isConnected (sc : Bool) (e : Emitter) (incoming : QByteArray) :
    (e.commandS sc incoming).1.m_isConnected = e.m_isConnected := by
  unfold commandS
  simp only []
  split
  · split <;> simp [qDebug, writeAndRead_isConnected]
  · simp [qDebug, writeAndRead_isConnected]

theorem commandS_timer (sc : Bool) (e : Emitter) (incoming : QByteArray) :
    (e.commandS sc incoming).1.m_pTimerCheckConnection = e.m_pTimerCheckConnection := by
  unfold commandS
  simp only []
  split
  · split <;> simp [qDebug, writeAndRead_timer]
  · simp [qDebug, writeAndRead_timer]

end Emitter

namespace Emitter

theorem commandP_port (sc : Bool) (e : Emitter) (volt curr workTime coolTime : Nat)
    (incoming : QByteArray) :
    (e.commandP sc volt curr workTime coolTime incoming).1.m_pSerialPort =
      (e.writeAndRead sc Command.P 8 0 (some (parameterBytes volt curr workTime coolTime))
        incoming).1.m_pSerialPort := by
  unfold commandP
  simp only []
  split
  · split <;> simp [qDebug]
  · simp [qDebug]

end Emitter

/-- C1: for every command and every payload of n bytes, n in 0..65535, handed to
writeAndRead as a non-null buffer with y1 = n mod 256 and y2 = n div 256, the
last byte of the request frame that writeAndRead builds is
(DEV + command byte + y1 + y2 + sum of the n payload bytes) mod 256. -/
theorem request_checksum_is_sum (signedChar : Bool) (com : Command) (payload : List Nat)
    (n y1 y2 : Nat) (hbytes : IsBytes payload) (hlen : payload.length = n) (hn : n ≤ 65535)
    (hy1 : y1 = n % 256) (hy2 : y2 = n / 256) :
    (buildRequest signedChar com y1 y2 (some payload)).getLast? =
      some ((DEV + com.code + y1 + y2 + payload.sum) % 256) := by
  subst hlen hy1 hy2
  rw [buildRequest_eq signedChar com payload (by omega) hbytes, List.getLast?_concat]
  simp [DEV]

theorem request_checksum_is_sum_witness :
    (buildRequest true Command.P 8 0 (some [0xE8, 0x03, 0x32, 0x00, 0x1E, 0x00, 0x3C, 0x00])).getLast? =
      some ((DEV + Command.P.code + 8 + 0 +
        [0xE8, 0x03, 0x32, 0x00, 0x1E, 0x00, 0x3C, 0x00].sum) % 256) :=
  request_checksum_is_sum true Command.P [0xE8, 0x03, 0x32, 0x00, 0x1E, 0x00, 0x3C, 0x00] 8 8 0
    (by decide) rfl (by decide) rfl rfl

/-- C2: for every command and every payload of n bytes, n in 0..65535, the
request frame that writeAndRead builds has exactly n + 6 bytes: 0x40, 0x00,
the command byte (0x53 for S, 0x50 for P, 0x4E for N, 0x46 for F), n mod 256,
n div 256, the payload bytes in their order, and last the checksum. -/
theorem request_layout (signedChar : Bool) (com : Command) (payload : List Nat) (n : Nat)
    (hbytes : IsBytes payload) (hlen : payload.length = n) (hn : n ≤ 65535) :
    (buildRequest signedChar com (n % 256) (n / 256) (some payload)).length = n + 6 ∧
    buildRequest signedChar com (n % 256) (n / 256) (some payload) =
      [0x40, 0x00, com.code, n % 256, n / 256] ++ payload ++
        [(DEV + com.code + n % 256 + n / 256 + payload.sum) % 256] ∧
    (∀ i, i < n →
      (buildRequest signedChar com (n % 256) (n / 256) (some payload))[5 + i]? = payload[i]?) ∧
    (buildRequest signedChar com (n % 256) (n / 256) (some payload))[n + 5]? =
      some ((DEV + com.code + n % 256 + n / 256 + payload.sum) % 256) ∧
    Command.S.code = 0x53 ∧ Command.P.code = 0x50 ∧ Command.N.code = 0x4E ∧
    Command.F.code = 0x46 := by
  subst hlen
  have h := buildRequest_eq signedChar com payload (by omega) hbytes
  have hfive : ∀ (a b c d e : Nat) (l : List Nat) (k : Nat),
      (a :: b :: c :: d :: e :: l)[5 + k]? = l[k]? := by
    intro a b c d e l k
    rw [show 5 + k = k + 1 + 1 + 1 + 1 + 1 by omega]
    simp only [List.getElem?_cons_succ]
  refine ⟨?_, ?_, ?_, ?_, rfl, rfl, rfl, rfl⟩
  · rw [h]; simp
  · rw [h]; simp [STARTBYTE, DEV]
  · intro i hi
    rw [h]
    simp only [List.cons_append, List.nil_append]
    rw [hfive, List.getElem?_append_left hi]
  · rw [h]
    simp only [List.cons_append, List.nil_append]
    rw [show payload.length + 5 = 5 + payload.length by omega, hfive,
      List.getElem?_append_right (le_refl _)]
    simp [DEV]

theorem request_layout_witness :
    (buildRequest true Command.P (3 % 256) (3 / 256) (some [0xE8, 0x03, 0x80])).length = 3 + 6 ∧
    buildRequest true Command.P (3 % 256) (3 / 256) (some [0xE8, 0x03, 0x80]) =
      [0x40, 0x00, Command.P.code, 3 % 256, 3 / 256] ++ [0xE8, 0x03, 0x80] ++
        [(DEV + Command.P.code + 3 % 256 + 3 / 256 + [0xE8, 0x03, 0x80].sum) % 256] ∧
    (∀ i, i < 3 →
      (buildRequest true Command.P (3 % 256) (3 / 256) (some [0xE8, 0x03, 0x80]))[5 + i]? =
        [0xE8, 0x03, 0x80][i]?) ∧
    (buildRequest true Command.P (3 % 256) (3 / 256) (some [0xE8, 0x03, 0x80]))[3 + 5]? =
      some ((DEV + Command.P.code + 3 % 256 + 3 / 256 + [0xE8, 0x03, 0x80].sum) % 256) ∧
    Command.S.code = 0x53 ∧ Command.P.code = 0x50 ∧ Command.N.code = 0x4E ∧
    Command.F.code = 0x46 :=
  request_layout true Command.P [0xE8, 0x03, 0x80] 3 (by decide) rfl (by decide)

theorem parameterBytes_eq (volt curr workTime coolTime : Nat) (hv : volt < 65536)
    (hc : curr < 65536) (hw : workTime < 65536) (ht : coolTime < 65536) :
    parameterBytes volt curr workTime coolTime =
      [volt % 256, volt / 256, curr % 256, curr / 256,
       workTime % 256, workTime / 256, coolTime % 256, coolTime / 256] := by
  unfold parameterBytes
  have h1 : (volt - volt / 256 * 256) % 256 = volt % 256 := by omega
  have h2 : (curr - curr / 256 * 256) % 256 = curr % 256 := by omega
  have h3 : (workTime - workTime / 256 * 256) % 256 = workTime % 256 := by omega
  have h4 : (coolTime - coolTime / 256 * 256) % 256 = coolTime % 256 := by omega
  have h5 : volt / 256 % 256 = volt / 256 := by omega
  have h6 : curr / 256 % 256 = curr / 256 := by omega
  have h7 : workTime / 256 % 256 = workTime / 256 := by omega
  have h8 : coolTime / 256 % 256 = coolTime / 256 := by omega
  rw [h1, h2, h3, h4, h5, h6, h7, h8]

theorem parameterBytes_isBytes (volt curr workTime coolTime : Nat) :
    IsBytes (parameterBytes volt curr workTime coolTime) := by
  intro b hb
  simp only [parameterBytes, List.mem_cons, List.mem_singleton, List.not_mem_nil, or_false] at hb
  rcases hb with h | h | h | h | h | h | h | h <;> (subst h; exact Nat.mod_lt _ (by decide))

/-- The frame commandP builds, for quint16 arguments. -/
theorem commandP_frame (sc : Bool) (volt curr workTime coolTime : Nat) (hv : volt < 65536)
    (hc : curr < 65536) (hw : workTime < 65536) (ht : coolTime < 65536) :
    buildRequest sc Command.P 8 0 (some (parameterBytes volt curr workTime coolTime)) =
      [0x40, 0x00, 0x50, 8, 0, volt % 256, volt / 256, curr % 256, curr / 256,
        workTime % 256, workTime / 256, coolTime % 256, coolTime / 256,
        (0x50 + 8 + 0 + (volt % 256 + volt / 256 + curr % 256 + curr / 256 +
          workTime % 256 + workTime / 256 + coolTime % 256 + coolTime / 256)) % 256] := by
  have h := buildRequest_eq sc Command.P (parameterBytes volt curr workTime coolTime)
    (by simp [parameterBytes]) (parameterBytes_isBytes volt curr workTime coolTime)
  have hl : (parameterBytes volt curr workTime coolTime).length = 8 := rfl
  rw [hl] at h
  rw [show (8 : Nat) % 256 = 8 from rfl, show (8 : Nat) / 256 = 0 from rfl] at h
  rw [h, parameterBytes_eq volt curr workTime coolTime hv hc hw ht]
  simp [STARTBYTE, DEV, Command.code]
  omega

/-- C3: for every four unsigned 16-bit values, the request commandP sends is
the frame 0x40, 0x00, 0x50, 8, 0 followed by the eight payload bytes
voltage mod 256, voltage div 256, current mod 256, current div 256,
workTime mod 256, workTime div 256, coolTime mod 256, coolTime div 256 and the
checksum; and the payload of (1000, 50, 30, 60) is
0xE8, 0x03, 0x32, 0x00, 0x1E, 0x00, 0x3C, 0x00. -/
theorem commandP_sends_parameters (signedChar : Bool) (e : Emitter)
    (volt curr workTime coolTime : Nat) (incoming : QByteArray)
    (hopen : e.m_pSerialPort.isOpen = true)
    (hv : volt < 65536) (hc : curr < 65536) (hw : workTime < 65536) (ht : coolTime < 65536) :
    (e.commandP signedChar volt curr workTime coolTime incoming).1.m_pSerialPort.written =
      e.m_pSerialPort.written ++
        [[0x40, 0x00, 0x50, 8, 0] ++
          [volt % 256, volt / 256, curr % 256, curr / 256,
            workTime % 256, workTime / 256, coolTime % 256, coolTime / 256] ++
          [(0x50 + 8 + 0 + (volt % 256 + volt / 256 + curr % 256 + curr / 256 +
            workTime % 256 + workTime / 256 + coolTime % 256 + coolTime / 256)) % 256]] ∧
    parameterBytes 1000 50 30 60 = [0xE8, 0x03, 0x32, 0x00, 0x1E, 0x00, 0x3C, 0x00] := by
  refine ⟨?_, by decide⟩
  rw [Emitter.commandP_port, Emitter.writeAndRead_written _ _ _ _ _ _ _ hopen,
    commandP_frame signedChar volt curr workTime coolTime hv hc hw ht]
  rfl

theorem commandP_sends_parameters_witness :
    ((Emitter.construct true true [0x40, 0x00, 0x53, 2, 0, 0, 0, 0x55]).commandP true
        1000 50 30 60 []).1.m_pSerialPort.written =
      [[0x40, 0x00, 0x53, 0, 0, 0x53],
       [0x40, 0x00, 0x50, 8, 0, 0xE8, 0x03, 0x32, 0x00, 0x1E, 0x00, 0x3C, 0x00, 0xCF]] :=
  (commandP_sends_parameters true (Emitter.construct true true [0x40, 0x00, 0x53, 2, 0, 0, 0, 0x55])
    1000 50 30 60 [] (by decide) (by decide) (by decide) (by decide) (by decide)).1

namespace Emitter

theorem commandP_isConnected (sc : Bool) (e : Emitter) (volt curr workTime coolTime : Nat)
    (incoming : QByteArray) :
    (e.commandP sc volt curr workTime coolTime incoming).1.m_isConnected = e.m_isConnected := by
  unfold commandP
  simp only []
  split
  · split <;> simp [qDebug, writeAndRead_isConnected]
  · simp [qDebug, writeAndRead_isConnected]

theorem commandP_timer (sc : Bool) (e : Emitter) (volt curr workTime coolTime : Nat)
    (incoming : QByteArray) :
    (e.commandP sc volt curr workTime coolTime incoming).1.m_pTimerCheckConnection =
      e.m_pTimerCheckConnection := by
  unfold commandP
  simp only []
  split
  · split <;> simp [qDebug, writeAndRead_timer]
  · simp [qDebug, writeAndRead_timer]

/-- The values commandP decodes: size 14 and the header condition, then four
words from bytes 5 .. 12. -/
theorem commandP_snd (sc : Bool) (e : Emitter) (volt curr workTime coolTime : Nat)
    (incoming : QByteArray) :
    (e.commandP sc volt curr workTime coolTime incoming).2 =
      if ((e.writeAndRead sc Command.P 8 0 (some (parameterBytes volt curr workTime coolTime))
            incoming).2.length = 8 + 6 ∧
          headerMatches sc (e.writeAndRead sc Command.P 8 0
            (some (parameterBytes volt curr workTime coolTime)) incoming).2 Command.P 8 = true)
      then some ⟨decodeWord sc (e.writeAndRead sc Command.P 8 0
            (some (parameterBytes volt curr workTime coolTime)) incoming).2 5,
          decodeWord sc (e.writeAndRead sc Command.P 8 0
            (some (parameterBytes volt curr workTime coolTime)) incoming).2 7,
          decodeWord sc (e.writeAndRead sc Command.P 8 0
            (some (parameterBytes volt curr workTime coolTime)) incoming).2 9,
          decodeWord sc (e.writeAndRead sc Command.P 8 0
            (some (parameterBytes volt curr workTime coolTime)) incoming).2 11⟩
      else none := by
  unfold commandP
  simp only []
  split <;> rename_i h
  · split <;> simp_all
  · simp [h]

theorem commandN_isConnected (sc : Bool) (e : Emitter) (incoming : QByteArray) :
    (e.commandN sc incoming).m_isConnected = e.m_isConnected := by
  unfold commandN
  simp only []
  split
  · split <;> simp [qDebug, writeAndRead_isConnected]
  · simp [qDebug, writeAndRead_isConnected]

theorem commandN_interval (sc : Bool) (e : Emitter) (incoming : QByteArray) :
    (e.commandN sc incoming).m_pTimerCheckConnection.interval =
      e.m_pTimerCheckConnection.interval := by
  unfold commandN
  simp only []
  split
  · split <;> simp [qDebug, writeAndRead_timer]
  · simp [qDebug, writeAndRead_timer]

/-- The timer after commandN: started on size 6 and the header condition,
otherwise as before. -/
theorem commandN_active (sc : Bool) (e : Emitter) (incoming : QByteArray) :
    (e.commandN sc incoming).m_pTimerCheckConnection.active =
      if ((e.writeAndRead sc Command.N 0 0 none incoming).2.length = 6 ∧
          headerMatches sc (e.writeAndRead sc Command.N 0 0 none incoming).2 Command.N 0 = true)
      then true else e.m_pTimerCheckConnection.active := by
  unfold commandN
  simp only []
  split <;> rename_i h
  · split <;> simp_all [qDebug, writeAndRead_timer]
  · simp [h, qDebug, writeAndRead_timer]

theorem commandF_isConnected (sc : Bool) (e : Emitter) (incoming : QByteArray) :
    (e.commandF sc incoming).m_isConnected = e.m_isConnected := by
  unfold commandF
  simp only []
  split
  · split <;> simp [qDebug, writeAndRead_isConnected]
  · simp [qDebug, writeAndRead_isConnected]

theorem commandF_interval (sc : Bool) (e : Emitter) (incoming : QByteArray) :
    (e.commandF sc incoming).m_pTimerCheckConnection.interval =
      e.m_pTimerCheckConnection.interval := by
  unfold commandF
  simp only []
  split
  · split <;> simp [qDebug, writeAndRead_timer]
  · simp [qDebug, writeAndRead_timer]

/-- The timer after commandF: stopped on size 6 and the header condition,
otherwise as before. -/
theorem commandF_active (sc : Bool) (e : Emitter) (incoming : QByteArray) :
    (e.commandF sc incoming).m_pTimerCheckConnection.active =
      if ((e.writeAndRead sc Command.F 0 0 none incoming).2.length = 6 ∧
          headerMatches sc (e.writeAndRead sc Command.F 0 0 none incoming).2 Command.F 0 = true)
      then false else e.m_pTimerCheckConnection.active := by
  unfold commandF
  simp only []
  split <;> rename_i h
  · split <;> simp_all [qDebug, writeAndRead_timer]
  · simp [h, qDebug, writeAndRead_timer]

/-- No call and no tick changes the interval of the timer. -/
theorem step_interval (sc : Bool) (e : Emitter) (c : Call) (incoming : QByteArray) :
    (e.step sc c incoming).m_pTimerCheckConnection.interval =
      e.m_pTimerCheckConnection.interval := by
  cases c with
  | setFeatures v c w t =>
    simp only [step, setFeatures]
    split
    · rw [commandP_timer]
    · rfl
  | turnOnXRay =>
    simp only [step, turnOnXRay]
    split
    · rw [commandN_interval]
    · rfl
  | turnOffXRay =>
    simp only [step, turnOffXRay]
    split
    · rw [commandF_interval]
    · rfl
  | tick =>
    simp only [step, heartbeatTick, onTimeout]
    split
    · rw [commandS_timer]
    · rfl

theorem run_interval (sc : Bool) (calls : List (Call × QByteArray)) (e : Emitter) :
    (e.run sc calls).m_pTimerCheckConnection.interval = e.m_pTimerCheckConnection.interval := by
  induction calls generalizing e with
  | nil => rfl
  | cons hd tl ih =>
    obtain ⟨c, incoming⟩ := hd
    simp only [run]
    rw [ih, step_interval]

theorem construct_interval (sc openOk : Bool) (incoming : QByteArray) :
    (construct sc openOk incoming).m_pTimerCheckConnection.interval = heartbeatInterval := by
  unfold construct connectToEmitter
  cases openOk
  · simp [qDebug]
  · simp only [if_true]
    split <;> simp [qDebug, commandS_timer]

end Emitter

/-- C4 (round trip of set-parameters), evaluated where plain char is signed:
the 14-byte frame commandP sends for (1000, 50, 30, 60), read back unchanged,
passes the response check, yet the voltage decoded from it is 744 and not
1000, because the low byte 0xE8 is read as the char -24. -/
theorem commandP_echo_signed_char_decodes_744 :
    ((Emitter.construct true true [0x40, 0x00, 0x53, 2, 0, 0, 0, 0x55]).commandP true
        1000 50 30 60
        [0x40, 0x00, 0x50, 8, 0, 0xE8, 0x03, 0x32, 0x00, 0x1E, 0x00, 0x3C, 0x00, 0xCF]
      ).1.m_pSerialPort.written.getLast? =
      some [0x40, 0x00, 0x50, 8, 0, 0xE8, 0x03, 0x32, 0x00, 0x1E, 0x00, 0x3C, 0x00, 0xCF] ∧
    ((Emitter.construct true true [0x40, 0x00, 0x53, 2, 0, 0, 0, 0x55]).commandP true
        1000 50 30 60
        [0x40, 0x00, 0x50, 8, 0, 0xE8, 0x03, 0x32, 0x00, 0x1E, 0x00, 0x3C, 0x00, 0xCF]).2 =
      some ⟨744, 50, 30, 60⟩ := by
  decide

/-- Where plain char is unsigned the round trip of set-parameters holds for
every four unsigned 16-bit values. -/
theorem commandP_echo_unsigned_char (e : Emitter) (volt curr workTime coolTime : Nat)
    (hopen : e.m_pSerialPort.isOpen = true)
    (hv : volt < 65536) (hc : curr < 65536) (hw : workTime < 65536) (ht : coolTime < 65536) :
    (e.commandP false volt curr workTime coolTime
      (buildRequest false Command.P 8 0 (some (parameterBytes volt curr workTime coolTime)))).2 =
      some ⟨volt, curr, workTime, coolTime⟩ := by
  rw [Emitter.commandP_snd, Emitter.writeAndRead_snd, if_pos hopen,
    commandP_frame false volt curr workTime coolTime hv hc hw ht]
  have hh : headerMatches false
      [0x40, 0x00, 0x50, 8, 0, volt % 256, volt / 256, curr % 256, curr / 256,
        workTime % 256, workTime / 256, coolTime % 256, coolTime / 256,
        (0x50 + 8 + 0 + (volt % 256 + volt / 256 + curr % 256 + curr / 256 +
          workTime % 256 + workTime / 256 + coolTime % 256 + coolTime / 256)) % 256]
      Command.P 8 = true := by
    simp [headerMatches, charToInt, asQuint8, STARTBYTE, Command.code]
  rw [if_pos ⟨rfl, hh⟩]
  simp only [decodeWord, charToInt, asQuint16, List.getD_eq_getElem?_getD]
  simp
  refine ⟨?_, ?_, ?_, ?_⟩ <;> omega

/-- C5 as stated fails: the interval given to the heartbeat timer is not
strictly below the host timeout of 1000 ms. -/
theorem heartbeat_period_not_below_timeout :
    ¬ ((Emitter.construct true true [0x40, 0x00, 0x53, 2, 0, 0, 0, 0x55]
        ).m_pTimerCheckConnection.interval < hostTimeoutMs) := by
  decide

/-- C5 amended: the period of the heartbeat timer is a fixed constant equal to
1000 ms, the host timeout itself: it is 1000 after construction, whatever the
port did, and stays 1000 through every sequence of calls and ticks. -/
theorem heartbeat_period_is_1000 (signedChar openOk : Bool) (incoming : QByteArray)
    (calls : List (Call × QByteArray)) :
    ((Emitter.construct signedChar openOk incoming).run signedChar calls
      ).m_pTimerCheckConnection.interval = 1000 ∧
    Emitter.heartbeatInterval = hostTimeoutMs := by
  refine ⟨?_, rfl⟩
  rw [Emitter.run_interval, Emitter.construct_interval]
  rfl

/-- C6 as stated fails: an emitter constructed on an answering device, with the
X-ray switched on, so that the heartbeat timer runs; the next tick gets no
response, commandS returns false, and afterwards isConnected is still true and
the timer still runs. -/
theorem failed_heartbeat_keeps_connection :
    (((Emitter.construct true true [0x40, 0x00, 0x53, 2, 0, 0, 0, 0x55]).turnOnXRay true
        [0x40, 0x00, 0x4E, 0, 0, 0x4E]).m_pTimerCheckConnection.active = true ∧
     (((Emitter.construct true true [0x40, 0x00, 0x53, 2, 0, 0, 0, 0x55]).turnOnXRay true
        [0x40, 0x00, 0x4E, 0, 0, 0x4E]).commandS true []).2 = false) ∧
    ¬ ((((Emitter.construct true true [0x40, 0x00, 0x53, 2, 0, 0, 0, 0x55]).turnOnXRay true
          [0x40, 0x00, 0x4E, 0, 0, 0x4E]).heartbeatTick true []).isConnected = false ∧
       (((Emitter.construct true true [0x40, 0x00, 0x53, 2, 0, 0, 0, 0x55]).turnOnXRay true
          [0x40, 0x00, 0x4E, 0, 0, 0x4E]).heartbeatTick true []
        ).m_pTimerCheckConnection.active = false) := by
  decide

/-- C6 amended: in every state in which the heartbeat timer is running, a tick
leaves the connection flag as it was and leaves the heartbeat timer running,
for every response and so also when the status exchange of the tick fails
(response absent or not accepted by commandS). -/
theorem failed_heartbeat_changes_nothing (signedChar : Bool) (e : Emitter)
    (incoming : QByteArray) (hrun : e.m_pTimerCheckConnection.active = true) :
    (e.heartbeatTick signedChar incoming).isConnected = e.isConnected ∧
    (e.heartbeatTick signedChar incoming).m_pTimerCheckConnection.active = true := by
  unfold Emitter.heartbeatTick Emitter.onTimeout Emitter.isConnected
  rw [if_pos hrun, Emitter.commandS_isConnected, Emitter.commandS_timer]
  exact ⟨rfl, hrun⟩

theorem failed_heartbeat_changes_nothing_witness :
    (((Emitter.construct true true [0x40, 0x00, 0x53, 2, 0, 0, 0, 0x55]).turnOnXRay true
        [0x40, 0x00, 0x4E, 0, 0, 0x4E]).commandS true [0x40, 0x00, 0x53]).2 = false ∧
    (((Emitter.construct true true [0x40, 0x00, 0x53, 2, 0, 0, 0, 0x55]).turnOnXRay true
        [0x40, 0x00, 0x4E, 0, 0, 0x4E]).heartbeatTick true [0x40, 0x00, 0x53]).isConnected =
      ((Emitter.construct true true [0x40, 0x00, 0x53, 2, 0, 0, 0, 0x55]).turnOnXRay true
        [0x40, 0x00, 0x4E, 0, 0, 0x4E]).isConnected ∧
    (((Emitter.construct true true [0x40, 0x00, 0x53, 2, 0, 0, 0, 0x55]).turnOnXRay true
        [0x40, 0x00, 0x4E, 0, 0, 0x4E]).heartbeatTick true [0x40, 0x00, 0x53]
      ).m_pTimerCheckConnection.active = true :=
  ⟨by decide, failed_heartbeat_changes_nothing true
    ((Emitter.construct true true [0x40, 0x00, 0x53, 2, 0, 0, 0, 0x55]).turnOnXRay true
      [0x40, 0x00, 0x4E, 0, 0, 0x4E])
    [0x40, 0x00, 0x53] (by decide)⟩

/-- On octets the header condition is a condition on bytes 0, 2, 3 and 4. -/
theorem headerMatches_iff (sc : Bool) (d : QByteArray) (com : Command) (len : Nat)
    (hd : IsBytes d) (hl : 5 ≤ d.length) (hlen : len < 128) :
    headerMatches sc d com len = true ↔
      d[0]? = some 0x40 ∧ d[2]? = some com.code ∧ d[3]? = some len ∧ d[4]? = some 0 := by
  match d, hl with
  | b0 :: b1 :: b2 :: b3 :: b4 :: rest, _ =>
    have h0 : b0 < 256 := hd b0 (by simp)
    have h2 : b2 < 256 := hd b2 (by simp)
    have h3 : b3 < 256 := hd b3 (by simp)
    have h4 : b4 < 256 := hd b4 (by simp)
    have e0 : charToInt sc b0 = 64 ↔ b0 = 64 := by
      unfold charToInt; cases sc <;> simp <;> omega
    have e2 : asQuint8 (charToInt sc b2) = com.code ↔ b2 = com.code := by
      rw [asQuint8_char sc b2 h2]
    have e3 : charToInt sc b3 = (len : Int) ↔ b3 = len := by
      unfold charToInt
      cases sc
      · simp
      · simp; omega
    have e4 : charToInt sc b4 = 0 ↔ b4 = 0 := by
      unfold charToInt
      cases sc
      · simp
      · simp; omega
    simp [headerMatches, STARTBYTE, e0, e2, e3, e4, and_assoc]

/-- The header condition reads bytes 0, 2, 3 and 4 only. -/
theorem headerMatches_congr (sc : Bool) (d1 d2 : QByteArray) (com : Command) (len : Nat)
    (h0 : d1.getD 0 0 = d2.getD 0 0) (h2 : d1.getD 2 0 = d2.getD 2 0)
    (h3 : d1.getD 3 0 = d2.getD 3 0) (h4 : d1.getD 4 0 = d2.getD 4 0) :
    headerMatches sc d1 com len = headerMatches sc d2 com len := by
  unfold headerMatches
  rw [h0, h2, h3, h4]

/-- Two arrays of one length with equal dropLast agree at every index but the last. -/
theorem getD_eq_of_dropLast_eq (d1 d2 : QByteArray) (hlen : d1.length = d2.length)
    (hinit : d1.dropLast = d2.dropLast) (i : Nat) (hi : i + 1 < d1.length) :
    d1.getD i 0 = d2.getD i 0 := by
  have h1 : d1.dropLast[i]? = d1[i]? := by
    rw [List.dropLast_eq_take, List.getElem?_take_of_lt (by omega)]
  have h2 : d2.dropLast[i]? = d2[i]? := by
    rw [List.dropLast_eq_take, List.getElem?_take_of_lt (by omega)]
  simp only [List.getD_eq_getElem?_getD]
  rw [← h1, ← h2, hinit]

namespace Emitter

theorem received_length_ne (sc : Bool) (e : Emitter) (com : Command) (y1 y2 : Nat)
    (m : Option (List Nat)) (incoming : QByteArray) (k : Nat) (hk : k ≠ 0)
    (h : incoming.length ≠ k) :
    (e.writeAndRead sc com y1 y2 m incoming).2.length ≠ k := by
  rw [writeAndRead_snd]
  split
  · exact h
  · simpa using hk.symm

end Emitter

/-- C7: a response whose length differs from the length the command expects is
rejected: commandS returns false for every response of length other than 8,
commandP decodes no parameters for every response of length other than 14,
and for every response of length other than 6 commandN does not start the
heartbeat timer and commandF does not stop it (the timer is as it was). -/
theorem wrong_length_is_rejected (signedChar : Bool) (e : Emitter)
    (volt curr workTime coolTime : Nat) (rS rP rNF : QByteArray)
    (hS : rS.length ≠ 8) (hP : rP.length ≠ 14) (hNF : rNF.length ≠ 6) :
    (e.commandS signedChar rS).2 = false ∧
    (e.commandP signedChar volt curr workTime coolTime rP).2 = none ∧
    (e.commandN signedChar rNF).m_pTimerCheckConnection.active =
      e.m_pTimerCheckConnection.active ∧
    (e.commandF signedChar rNF).m_pTimerCheckConnection.active =
      e.m_pTimerCheckConnection.active := by
  refine ⟨?_, ?_, ?_, ?_⟩
  · rw [Emitter.commandS_snd]
    simp [Emitter.received_length_ne signedChar e Command.S 0 0 none rS 8 (by decide) hS]
  · rw [Emitter.commandP_snd]
    have h := Emitter.received_length_ne signedChar e Command.P 8 0
      (some (parameterBytes volt curr workTime coolTime)) rP 14 (by decide) hP
    rw [if_neg (fun hc => h hc.1)]
  · rw [Emitter.commandN_active]
    have h := Emitter.received_length_ne signedChar e Command.N 0 0 none rNF 6 (by decide) hNF
    rw [if_neg (fun hc => h hc.1)]
  · rw [Emitter.commandF_active]
    have h := Emitter.received_length_ne signedChar e Command.F 0 0 none rNF 6 (by decide) hNF
    rw [if_neg (fun hc => h hc.1)]

theorem wrong_length_is_rejected_witness :
    ((Emitter.construct true true [0x40, 0x00, 0x53, 2, 0, 0, 0, 0x55]).commandS true
      [0x40, 0x00, 0x53, 2, 0, 0, 0, 0x55, 0x00]).2 = false ∧
    ((Emitter.construct true true [0x40, 0x00, 0x53, 2, 0, 0, 0, 0x55]).commandP true
      1000 50 30 60 [0x40, 0x00, 0x50, 8, 0, 0xE8, 0x03, 0x32, 0x00, 0x1E, 0x00, 0x3C, 0x00]).2
        = none ∧
    ((Emitter.construct true true [0x40, 0x00, 0x53, 2, 0, 0, 0, 0x55]).commandN true
      []).m_pTimerCheckConnection.active =
      (Emitter.construct true true [0x40, 0x00, 0x53, 2, 0, 0, 0, 0x55]
        ).m_pTimerCheckConnection.active ∧
    ((Emitter.construct true true [0x40, 0x00, 0x53, 2, 0, 0, 0, 0x55]).commandF true
      []).m_pTimerCheckConnection.active =
      (Emitter.construct true true [0x40, 0x00, 0x53, 2, 0, 0, 0, 0x55]
        ).m_pTimerCheckConnection.active :=
  wrong_length_is_rejected true
    (Emitter.construct true true [0x40, 0x00, 0x53, 2, 0, 0, 0, 0x55]) 1000 50 30 60
    [0x40, 0x00, 0x53, 2, 0, 0, 0, 0x55, 0x00]
    [0x40, 0x00, 0x50, 8, 0, 0xE8, 0x03, 0x32, 0x00, 0x1E, 0x00, 0x3C, 0x00]
    [] (by decide) (by decide) (by decide)

/-- C8: whenever isConnected is false, turnOffXRay, turnOnXRay and setFeatures
(for any arguments) leave the whole state as it was: nothing is written to the
serial port, readAll is not called, and the connection flag and the heartbeat
timer are untouched. -/
theorem disconnected_calls_are_noops (signedChar : Bool) (e : Emitter)
    (voltage current workTime coolTime : Int) (incoming : QByteArray)
    (hdis : e.isConnected = false) :
    e.turnOffXRay signedChar incoming = e ∧
    e.turnOnXRay signedChar incoming = e ∧
    e.setFeatures signedChar voltage current workTime coolTime incoming = e ∧
    (e.turnOffXRay signedChar incoming).m_pSerialPort.written = e.m_pSerialPort.written ∧
    (e.turnOffXRay signedChar incoming).m_pSerialPort.reads = e.m_pSerialPort.reads := by
  have h1 : e.turnOffXRay signedChar incoming = e := by
    simp [Emitter.turnOffXRay, hdis]
  refine ⟨h1, ?_, ?_, ?_, ?_⟩
  · simp [Emitter.turnOnXRay, hdis]
  · simp [Emitter.setFeatures, hdis]
  · rw [h1]
  · rw [h1]

theorem disconnected_calls_are_noops_witness :
    (Emitter.construct true true []).turnOffXRay true [0x40, 0x00, 0x46, 0, 0, 0x46] =
      Emitter.construct true true [] ∧
    (Emitter.construct true true []).turnOnXRay true [0x40, 0x00, 0x46, 0, 0, 0x46] =
      Emitter.construct true true [] ∧
    (Emitter.construct true true []).setFeatures true 1000 50 30 60
      [0x40, 0x00, 0x46, 0, 0, 0x46] = Emitter.construct true true [] ∧
    ((Emitter.construct true true []).turnOffXRay true
      [0x40, 0x00, 0x46, 0, 0, 0x46]).m_pSerialPort.written =
      (Emitter.construct true true []).m_pSerialPort.written ∧
    ((Emitter.construct true true []).turnOffXRay true
      [0x40, 0x00, 0x46, 0, 0, 0x46]).m_pSerialPort.reads =
      (Emitter.construct true true []).m_pSerialPort.reads :=
  disconnected_calls_are_noops true (Emitter.construct true true []) 1000 50 30 60
    [0x40, 0x00, 0x46, 0, 0, 0x46] (by decide)

namespace Emitter

theorem commandS_port (sc : Bool) (e : Emitter) (incoming : QByteArray) :
    (e.commandS sc incoming).1.m_pSerialPort =
      (e.writeAndRead sc Command.S 0 0 none incoming).1.m_pSerialPort := by
  unfold commandS
  simp only []
  split
  · split <;> simp [qDebug]
  · simp [qDebug]

/-- The state connectToEmitter starts from inside the constructor. -/
theorem construct_eq (sc openOk : Bool) (incoming : QByteArray) :
    construct sc openOk incoming =
      connectToEmitter sc
        { m_pSerialPort := { isOpen := false, written := [], reads := 0 }
          m_isConnected := false
          m_pTimerCheckConnection := { interval := heartbeatInterval, active := false }
          debug := [] } openOk incoming := rfl

/-- The flag connectToEmitter assigns. -/
theorem connectToEmitter_isConnected (sc : Bool) (e : Emitter) (openOk : Bool)
    (incoming : QByteArray) :
    (e.connectToEmitter sc openOk incoming).m_isConnected =
      (openOk && decide (incoming.length = 8) && headerMatches sc incoming Command.S 2) := by
  unfold connectToEmitter
  cases openOk
  · simp
  · simp only [if_true]
    have h := commandS_snd sc { e with m_pSerialPort := { e.m_pSerialPort with isOpen := true } }
      incoming
    rw [writeAndRead_snd] at h
    simp only [if_true] at h
    split <;> simp_all [qDebug]

/-- What connectToEmitter writes: the status query if the port opened. -/
theorem connectToEmitter_written (sc : Bool) (e : Emitter) (openOk : Bool)
    (incoming : QByteArray) :
    (e.connectToEmitter sc openOk incoming).m_pSerialPort.written =
      if openOk then e.m_pSerialPort.written ++ [buildRequest sc Command.S 0 0 none]
      else e.m_pSerialPort.written := by
  unfold connectToEmitter
  cases openOk
  · simp [qDebug]
  · simp only [if_true]
    have h := commandS_port sc
      { e with m_pSerialPort := { e.m_pSerialPort with isOpen := true } } incoming
    have hw := writeAndRead_written sc
      { e with m_pSerialPort := { e.m_pSerialPort with isOpen := true } } Command.S 0 0 none
      incoming rfl
    rw [← h] at hw
    split <;> simp_all [qDebug]

end Emitter

/-- C9: after construction isConnected is true if and only if the serial port
opened and the response to the status probe has exactly 8 bytes with byte 0 =
0x40, byte 2 = 0x53, byte 3 = 2 and byte 4 = 0, whatever the state byte, the
fault byte, the device id and the checksum are.  When the port opened exactly
one frame, the status query, was written; when it failed to open no frame was
written and isConnected is false. -/
theorem connected_iff_probe_well_formed (signedChar openOk : Bool) (incoming : QByteArray)
    (hbytes : IsBytes incoming) :
    ((Emitter.construct signedChar openOk incoming).isConnected = true ↔
      (openOk = true ∧ incoming.length = 8 ∧ incoming[0]? = some 0x40 ∧
        incoming[2]? = some 0x53 ∧ incoming[3]? = some 2 ∧ incoming[4]? = some 0)) ∧
    (openOk = true →
      (Emitter.construct signedChar openOk incoming).m_pSerialPort.written =
        [[0x40, 0x00, 0x53, 0, 0, 0x53]]) ∧
    (openOk = false →
      (Emitter.construct signedChar openOk incoming).m_pSerialPort.written = [] ∧
      (Emitter.construct signedChar openOk incoming).isConnected = false) := by
  refine ⟨?_, ?_, ?_⟩
  · rw [Emitter.isConnected, Emitter.construct_eq, Emitter.connectToEmitter_isConnected]
    simp only [Bool.and_eq_true, decide_eq_true_eq]
    constructor
    · rintro ⟨⟨ho, hl⟩, hh⟩
      have := (headerMatches_iff signedChar incoming Command.S 2 hbytes (by omega)
        (by decide)).mp hh
      exact ⟨ho, hl, this⟩
    · rintro ⟨ho, hl, hh⟩
      exact ⟨⟨ho, hl⟩, (headerMatches_iff signedChar incoming Command.S 2 hbytes (by omega)
        (by decide)).mpr hh⟩
  · intro ho
    rw [Emitter.construct_eq, Emitter.connectToEmitter_written, if_pos ho]
    cases signedChar <;> rfl
  · intro ho
    rw [Emitter.isConnected, Emitter.construct_eq, Emitter.connectToEmitter_written,
      Emitter.connectToEmitter_isConnected]
    simp [ho]

theorem connected_iff_probe_well_formed_witness :
    ((Emitter.construct true true [0x40, 0x00, 0x53, 2, 0, 0x01, 0x07, 0x5D]).isConnected = true ↔
      (true = true ∧ [0x40, 0x00, 0x53, 2, 0, 0x01, 0x07, 0x5D].length = 8 ∧
        [0x40, 0x00, 0x53, 2, 0, 0x01, 0x07, 0x5D][0]? = some 0x40 ∧
        [0x40, 0x00, 0x53, 2, 0, 0x01, 0x07, 0x5D][2]? = some 0x53 ∧
        [0x40, 0x00, 0x53, 2, 0, 0x01, 0x07, 0x5D][3]? = some 2 ∧
        [0x40, 0x00, 0x53, 2, 0, 0x01, 0x07, 0x5D][4]? = some 0)) ∧
    (true = true →
      (Emitter.construct true true [0x40, 0x00, 0x53, 2, 0, 0x01, 0x07, 0x5D]
        ).m_pSerialPort.written = [[0x40, 0x00, 0x53, 0, 0, 0x53]]) ∧
    (true = false →
      (Emitter.construct true true [0x40, 0x00, 0x53, 2, 0, 0x01, 0x07, 0x5D]
        ).m_pSerialPort.written = [] ∧
      (Emitter.construct true true [0x40, 0x00, 0x53, 2, 0, 0x01, 0x07, 0x5D]
        ).isConnected = false) :=
  connected_iff_probe_well_formed true true [0x40, 0x00, 0x53, 2, 0, 0x01, 0x07, 0x5D]
    (by decide)

/-- The decoding of a word reads bytes i and i + 1 only. -/
theorem decodeWord_congr (sc : Bool) (d1 d2 : QByteArray) (i : Nat)
    (h0 : d1.getD i 0 = d2.getD i 0) (h1 : d1.getD (i + 1) 0 = d2.getD (i + 1) 0) :
    decodeWord sc d1 i = decodeWord sc d2 i := by
  unfold decodeWord
  rw [h0, h1]

namespace Emitter

/-- What a command sees as receivedData has the length of what another
response of the same length would give. -/
theorem received_length_congr (sc : Bool) (e : Emitter) (com : Command) (y1 y2 : Nat)
    (m : Option (List Nat)) (r1 r2 : QByteArray) (hlen : r1.length = r2.length) :
    (e.writeAndRead sc com y1 y2 m r1).2.length = (e.writeAndRead sc com y1 y2 m r2).2.length := by
  rw [writeAndRead_snd, writeAndRead_snd]
  split
  · exact hlen
  · rfl

/-- What a command sees as receivedData agrees, before the last byte, with
what another response that differs in the last byte only would give. -/
theorem received_getD_congr (sc : Bool) (e : Emitter) (com : Command) (y1 y2 : Nat)
    (m : Option (List Nat)) (r1 r2 : QByteArray) (hlen : r1.length = r2.length)
    (hinit : r1.dropLast = r2.dropLast) (i : Nat)
    (hi : i + 1 < (e.writeAndRead sc com y1 y2 m r1).2.length) :
    (e.writeAndRead sc com y1 y2 m r1).2.getD i 0 = (e.writeAndRead sc com y1 y2 m r2).2.getD i 0 := by
  rw [writeAndRead_snd] at hi ⊢
  rw [writeAndRead_snd]
  split
  · rename_i ho
    rw [if_pos ho] at hi
    exact getD_eq_of_dropLast_eq r1 r2 hlen hinit i hi
  · rfl

end Emitter

/-- C10: a checksum mismatch is never a hard failure.  For two responses of
one length that differ at most in their last byte, the trailing checksum,
commandS returns the same boolean, commandP decodes the same four values (or
none for both), and commandN and commandF leave the heartbeat timer in the
same running state. -/
theorem checksum_byte_never_decides (signedChar : Bool) (e : Emitter)
    (volt curr workTime coolTime : Nat) (r1 r2 : QByteArray)
    (hlen : r1.length = r2.length) (hinit : r1.dropLast = r2.dropLast) :
    (e.commandS signedChar r1).2 = (e.commandS signedChar r2).2 ∧
    (e.commandP signedChar volt curr workTime coolTime r1).2 =
      (e.commandP signedChar volt curr workTime coolTime r2).2 ∧
    (e.commandN signedChar r1).m_pTimerCheckConnection.active =
      (e.commandN signedChar r2).m_pTimerCheckConnection.active ∧
    (e.commandF signedChar r1).m_pTimerCheckConnection.active =
      (e.commandF signedChar r2).m_pTimerCheckConnection.active := by
  have hdr : ∀ (com : Command) (y1 y2 : Nat) (m : Option (List Nat)) (len k : Nat), 6 ≤ k →
      (e.writeAndRead signedChar com y1 y2 m r1).2.length = k →
      headerMatches signedChar (e.writeAndRead signedChar com y1 y2 m r1).2 com len =
        headerMatches signedChar (e.writeAndRead signedChar com y1 y2 m r2).2 com len := by
    intro com y1 y2 m len k hk hl
    apply headerMatches_congr <;>
      exact Emitter.received_getD_congr signedChar e com y1 y2 m r1 r2 hlen hinit _ (by omega)
  refine ⟨?_, ?_, ?_, ?_⟩
  · rw [Emitter.commandS_snd, Emitter.commandS_snd,
      ← Emitter.received_length_congr signedChar e Command.S 0 0 none r1 r2 hlen]
    by_cases hl : (e.writeAndRead signedChar Command.S 0 0 none r1).2.length = 8
    · rw [hdr Command.S 0 0 none 2 8 (by decide) hl]
    · simp [hl]
  · rw [Emitter.commandP_snd, Emitter.commandP_snd,
      ← Emitter.received_length_congr signedChar e Command.P 8 0 _ r1 r2 hlen]
    by_cases hl : (e.writeAndRead signedChar Command.P 8 0
        (some (parameterBytes volt curr workTime coolTime)) r1).2.length = 8 + 6
    · have hg : ∀ i, i + 1 < 14 →
          (e.writeAndRead signedChar Command.P 8 0
            (some (parameterBytes volt curr workTime coolTime)) r1).2.getD i 0 =
          (e.writeAndRead signedChar Command.P 8 0
            (some (parameterBytes volt curr workTime coolTime)) r2).2.getD i 0 := by
        intro i hi
        exact Emitter.received_getD_congr signedChar e Command.P 8 0 _ r1 r2 hlen hinit i
          (by omega)
      rw [hdr Command.P 8 0 _ 8 14 (by decide) hl,
        decodeWord_congr signedChar _ _ 5 (hg 5 (by decide)) (hg 6 (by decide)),
        decodeWord_congr signedChar _ _ 7 (hg 7 (by decide)) (hg 8 (by decide)),
        decodeWord_congr signedChar _ _ 9 (hg 9 (by decide)) (hg 10 (by decide)),
        decodeWord_congr signedChar _ _ 11 (hg 11 (by decide)) (hg 12 (by decide))]
    · rw [if_neg (fun hc => hl hc.1), if_neg (fun hc => hl hc.1)]
  · rw [Emitter.commandN_active, Emitter.commandN_active,
      ← Emitter.received_length_congr signedChar e Command.N 0 0 none r1 r2 hlen]
    by_cases hl : (e.writeAndRead signedChar Command.N 0 0 none r1).2.length = 6
    · rw [hdr Command.N 0 0 none 0 6 (by decide) hl]
    · rw [if_neg (fun hc => hl hc.1), if_neg (fun hc => hl hc.1)]
  · rw [Emitter.commandF_active, Emitter.commandF_active,
      ← Emitter.received_length_congr signedChar e Command.F 0 0 none r1 r2 hlen]
    by_cases hl : (e.writeAndRead signedChar Command.F 0 0 none r1).2.length = 6
    · rw [hdr Command.F 0 0 none 0 6 (by decide) hl]
    · rw [if_neg (fun hc => hl hc.1), if_neg (fun hc => hl hc.1)]

theorem checksum_byte_never_decides_witness :
    ((Emitter.construct true true [0x40, 0x00, 0x53, 2, 0, 0, 0, 0x55]).commandS true
        [0x40, 0x00, 0x53, 2, 0, 0x01, 0x07, 0x5D]).2 =
      ((Emitter.construct true true [0x40, 0x00, 0x53, 2, 0, 0, 0, 0x55]).commandS true
        [0x40, 0x00, 0x53, 2, 0, 0x01, 0x07, 0xFF]).2 ∧
    ((Emitter.construct true true [0x40, 0x00, 0x53, 2, 0, 0, 0, 0x55]).commandP true
        1000 50 30 60 [0x40, 0x00, 0x53, 2, 0, 0x01, 0x07, 0x5D]).2 =
      ((Emitter.construct true true [0x40, 0x00, 0x53, 2, 0, 0, 0, 0x55]).commandP true
        1000 50 30 60 [0x40, 0x00, 0x53, 2, 0, 0x01, 0x07, 0xFF]).2 ∧
    ((Emitter.construct true true [0x40, 0x00, 0x53, 2, 0, 0, 0, 0x55]).commandN true
        [0x40, 0x00, 0x53, 2, 0, 0x01, 0x07, 0x5D]).m_pTimerCheckConnection.active =
      ((Emitter.construct true true [0x40, 0x00, 0x53, 2, 0, 0, 0, 0x55]).commandN true
        [0x40, 0x00, 0x53, 2, 0, 0x01, 0x07, 0xFF]).m_pTimerCheckConnection.active ∧
    ((Emitter.construct true true [0x40, 0x00, 0x53, 2, 0, 0, 0, 0x55]).commandF true
        [0x40, 0x00, 0x53, 2, 0, 0x01, 0x07, 0x5D]).m_pTimerCheckConnection.active =
      ((Emitter.construct true true [0x40, 0x00, 0x53, 2, 0, 0, 0, 0x55]).commandF true
        [0x40, 0x00, 0x53, 2, 0, 0x01, 0x07, 0xFF]).m_pTimerCheckConnection.active :=
  checksum_byte_never_decides true
    (Emitter.construct true true [0x40, 0x00, 0x53, 2, 0, 0, 0, 0x55]) 1000 50 30 60
    [0x40, 0x00, 0x53, 2, 0, 0x01, 0x07, 0x5D] [0x40, 0x00, 0x53, 2, 0, 0x01, 0x07, 0xFF]
    (by decide) (by decide)

namespace Emitter

/-- An exchange neither opens nor closes the port. -/
theorem writeAndRead_isOpen (sc : Bool) (e : Emitter) (com : Command) (y1 y2 : Nat)
    (m : Option (List Nat)) (incoming : QByteArray) :
    (e.writeAndRead sc com y1 y2 m incoming).1.m_pSerialPort.isOpen = e.m_pSerialPort.isOpen := by
  by_cases h : e.m_pSerialPort.isOpen = true <;> simp [writeAndRead, h]

theorem commandN_port (sc : Bool) (e : Emitter) (incoming : QByteArray) :
    (e.commandN sc incoming).m_pSerialPort =
      (e.writeAndRead sc Command.N 0 0 none incoming).1.m_pSerialPort := by
  unfold commandN
  simp only []
  split
  · split <;> simp [qDebug]
  · simp [qDebug]

theorem commandF_port (sc : Bool) (e : Emitter) (incoming : QByteArray) :
    (e.commandF sc incoming).m_pSerialPort =
      (e.writeAndRead sc Command.F 0 0 none incoming).1.m_pSerialPort := by
  unfold commandF
  simp only []
  split
  · split <;> simp [qDebug]
  · simp [qDebug]

/-- No call and no tick assigns the connection flag. -/
theorem step_isConnected (sc : Bool) (e : Emitter) (c : Call) (incoming : QByteArray) :
    (e.step sc c incoming).m_isConnected = e.m_isConnected := by
  cases c with
  | setFeatures v c w t =>
    simp only [step, setFeatures]
    split
    · rw [commandP_isConnected]
    · rfl
  | turnOnXRay =>
    simp only [step, turnOnXRay]
    split
    · rw [commandN_isConnected]
    · rfl
  | turnOffXRay =>
    simp only [step, turnOffXRay]
    split
    · rw [commandF_isConnected]
    · rfl
  | tick =>
    simp only [step, heartbeatTick, onTimeout]
    split
    · rw [commandS_isConnected]
    · rfl

/-- No call and no tick opens or closes the port. -/
theorem step_isOpen (sc : Bool) (e : Emitter) (c : Call) (incoming : QByteArray) :
    (e.step sc c incoming).m_pSerialPort.isOpen = e.m_pSerialPort.isOpen := by
  cases c with
  | setFeatures v c w t =>
    simp only [step, setFeatures]
    split
    · rw [commandP_port, writeAndRead_isOpen]
    · rfl
  | turnOnXRay =>
    simp only [step, turnOnXRay]
    split
    · rw [commandN_port, writeAndRead_isOpen]
    · rfl
  | turnOffXRay =>
    simp only [step, turnOffXRay]
    split
    · rw [commandF_port, writeAndRead_isOpen]
    · rfl
  | tick =>
    simp only [step, heartbeatTick, onTimeout]
    split
    · rw [commandS_port, writeAndRead_isOpen]
    · rfl

theorem run_isConnected (sc : Bool) (calls : List (Call × QByteArray)) (e : Emitter) :
    (e.run sc calls).m_isConnected = e.m_isConnected := by
  induction calls generalizing e with
  | nil => rfl
  | cons hd tl ih =>
    obtain ⟨c, incoming⟩ := hd
    simp only [run]
    rw [ih, step_isConnected]

theorem run_isOpen (sc : Bool) (calls : List (Call × QByteArray)) (e : Emitter) :
    (e.run sc calls).m_pSerialPort.isOpen = e.m_pSerialPort.isOpen := by
  induction calls generalizing e with
  | nil => rfl
  | cons hd tl ih =>
    obtain ⟨c, incoming⟩ := hd
    simp only [run]
    rw [ih, step_isOpen]

/-- After the constructor the port is open exactly when open succeeded. -/
theorem construct_isOpen (sc openOk : Bool) (incoming : QByteArray) :
    (construct sc openOk incoming).m_pSerialPort.isOpen = openOk := by
  rw [construct_eq]
  unfold connectToEmitter
  cases openOk
  · simp [qDebug]
  · simp only [if_true]
    have h := commandS_port sc
      { m_pSerialPort := { isOpen := true, written := [], reads := 0 }
        m_isConnected := false
        m_pTimerCheckConnection := { interval := heartbeatInterval, active := false }
        debug := [] } incoming
    have ho := writeAndRead_isOpen sc
      { m_pSerialPort := { isOpen := true, written := [], reads := 0 }
        m_isConnected := false
        m_pTimerCheckConnection := { interval := heartbeatInterval, active := false }
        debug := [] } Command.S 0 0 none incoming
    rw [← h] at ho
    split <;> simp_all [qDebug]

/-- In every state reached from the constructor a connected emitter has an
open port. -/
theorem reachable_connected_isOpen (sc openOk : Bool) (probe : QByteArray)
    (calls : List (Call × QByteArray))
    (hc : ((construct sc openOk probe).run sc calls).isConnected = true) :
    ((construct sc openOk probe).run sc calls).m_pSerialPort.isOpen = true := by
  rw [isConnected, run_isConnected, construct_eq, connectToEmitter_isConnected] at hc
  rw [run_isOpen, construct_isOpen]
  simp only [Bool.and_eq_true] at hc
  exact hc.1.1

end Emitter

/-- The zero-payload request frame of a command. -/
theorem buildRequest_zero (sc : Bool) (com : Command) :
    buildRequest sc com 0 0 none = [0x40, 0x00, com.code, 0, 0, com.code] := by
  cases sc <;> cases com <;> rfl

/-- C11: turnOnXRay on a connected emitter (any state reached from the
constructor in which isConnected is true) writes exactly the frame
0x40, 0x00, 0x4E, 0x00, 0x00, 0x4E.  Afterwards the heartbeat timer is running
if the response has 6 bytes with byte 0 = 0x40, byte 2 = 0x4E, byte 3 = 0 and
byte 4 = 0; for every other response the running state of the timer is what
it was before the call. -/
theorem turnOnXRay_exchange (signedChar openOk : Bool) (probe : QByteArray)
    (calls : List (Call × QByteArray)) (e : Emitter) (incoming : QByteArray)
    (he : e = (Emitter.construct signedChar openOk probe).run signedChar calls)
    (hconn : e.isConnected = true) (hbytes : IsBytes incoming) :
    (e.turnOnXRay signedChar incoming).m_pSerialPort.written =
      e.m_pSerialPort.written ++ [[0x40, 0x00, 0x4E, 0x00, 0x00, 0x4E]] ∧
    ((incoming.length = 6 ∧ incoming[0]? = some 0x40 ∧ incoming[2]? = some 0x4E ∧
        incoming[3]? = some 0 ∧ incoming[4]? = some 0) →
      (e.turnOnXRay signedChar incoming).m_pTimerCheckConnection.active = true) ∧
    (¬ (incoming.length = 6 ∧ incoming[0]? = some 0x40 ∧ incoming[2]? = some 0x4E ∧
        incoming[3]? = some 0 ∧ incoming[4]? = some 0) →
      (e.turnOnXRay signedChar incoming).m_pTimerCheckConnection.active =
        e.m_pTimerCheckConnection.active) := by
  have hopen : e.m_pSerialPort.isOpen = true := by
    subst he
    exact Emitter.reachable_connected_isOpen signedChar openOk probe calls hconn
  have hrecv : (e.writeAndRead signedChar Command.N 0 0 none incoming).2 = incoming := by
    rw [Emitter.writeAndRead_snd, if_pos hopen]
  unfold Emitter.turnOnXRay
  rw [if_pos hconn, Emitter.commandN_port, Emitter.writeAndRead_written _ _ _ _ _ _ _ hopen,
    buildRequest_zero, Emitter.commandN_active, hrecv]
  refine ⟨rfl, ?_, ?_⟩
  · rintro ⟨hl, hh⟩
    rw [if_pos ⟨hl, (headerMatches_iff signedChar incoming Command.N 0 hbytes (by omega)
      (by decide)).mpr hh⟩]
  · intro hn
    rw [if_neg]
    rintro ⟨hl, hh⟩
    exact hn ⟨hl, (headerMatches_iff signedChar incoming Command.N 0 hbytes (by omega)
      (by decide)).mp hh⟩

theorem turnOnXRay_exchange_witness :
    ((Emitter.construct true true [0x40, 0x00, 0x53, 2, 0, 0, 0, 0x55]).turnOnXRay true
        [0x40, 0x00, 0x4E, 0, 0, 0x4E]).m_pSerialPort.written =
      [[0x40, 0x00, 0x53, 0, 0, 0x53], [0x40, 0x00, 0x4E, 0x00, 0x00, 0x4E]] ∧
    ((Emitter.construct true true [0x40, 0x00, 0x53, 2, 0, 0, 0, 0x55]).turnOnXRay true
        [0x40, 0x00, 0x4E, 0, 0, 0x4E]).m_pTimerCheckConnection.active = true :=
  ⟨(turnOnXRay_exchange true true [0x40, 0x00, 0x53, 2, 0, 0, 0, 0x55] []
      (Emitter.construct true true [0x40, 0x00, 0x53, 2, 0, 0, 0, 0x55])
      [0x40, 0x00, 0x4E, 0, 0, 0x4E] rfl (by decide) (by decide)).1,
   (turnOnXRay_exchange true true [0x40, 0x00, 0x53, 2, 0, 0, 0, 0x55] []
      (Emitter.construct true true [0x40, 0x00, 0x53, 2, 0, 0, 0, 0x55])
      [0x40, 0x00, 0x4E, 0, 0, 0x4E] rfl (by decide) (by decide)).2.1 (by decide)⟩

/-- C12: turnOffXRay on a connected emitter (any state reached from the
constructor in which isConnected is true) writes exactly the frame
0x40, 0x00, 0x46, 0x00, 0x00, 0x46.  Afterwards the heartbeat timer is stopped
if the response has 6 bytes with byte 0 = 0x40, byte 2 = 0x46, byte 3 = 0 and
byte 4 = 0; for every other response the running state of the timer is what
it was before the call, so a heartbeat that was running keeps running. -/
theorem turnOffXRay_exchange (signedChar openOk : Bool) (probe : QByteArray)
    (calls : List (Call × QByteArray)) (e : Emitter) (incoming : QByteArray)
    (he : e = (Emitter.construct signedChar openOk probe).run signedChar calls)
    (hconn : e.isConnected = true) (hbytes : IsBytes incoming) :
    (e.turnOffXRay signedChar incoming).m_pSerialPort.written =
      e.m_pSerialPort.written ++ [[0x40, 0x00, 0x46, 0x00, 0x00, 0x46]] ∧
    ((incoming.length = 6 ∧ incoming[0]? = some 0x40 ∧ incoming[2]? = some 0x46 ∧
        incoming[3]? = some 0 ∧ incoming[4]? = some 0) →
      (e.turnOffXRay signedChar incoming).m_pTimerCheckConnection.active = false) ∧
    (¬ (incoming.length = 6 ∧ incoming[0]? = some 0x40 ∧ incoming[2]? = some 0x46 ∧
        incoming[3]? = some 0 ∧ incoming[4]? = some 0) →
      (e.turnOffXRay signedChar incoming).m_pTimerCheckConnection.active =
        e.m_pTimerCheckConnection.active) := by
  have hopen : e.m_pSerialPort.isOpen = true := by
    subst he
    exact Emitter.reachable_connected_isOpen signedChar openOk probe calls hconn
  have hrecv : (e.writeAndRead signedChar Command.F 0 0 none incoming).2 = incoming := by
    rw [Emitter.writeAndRead_snd, if_pos hopen]
  unfold Emitter.turnOffXRay
  rw [if_pos hconn, Emitter.commandF_port, Emitter.writeAndRead_written _ _ _ _ _ _ _ hopen,
    buildRequest_zero, Emitter.commandF_active, hrecv]
  refine ⟨rfl, ?_, ?_⟩
  · rintro ⟨hl, hh⟩
    rw [if_pos ⟨hl, (headerMatches_iff signedChar incoming Command.F 0 hbytes (by omega)
      (by decide)).mpr hh⟩]
  · intro hn
    rw [if_neg]
    rintro ⟨hl, hh⟩
    exact hn ⟨hl, (headerMatches_iff signedChar incoming Command.F 0 hbytes (by omega)
      (by decide)).mp hh⟩

theorem turnOffXRay_exchange_witness :
    (((Emitter.construct true true [0x40, 0x00, 0x53, 2, 0, 0, 0, 0x55]).run true
        [(Call.turnOnXRay, [0x40, 0x00, 0x4E, 0, 0, 0x4E])]).turnOffXRay true
        []).m_pSerialPort.written =
      [[0x40, 0x00, 0x53, 0, 0, 0x53], [0x40, 0x00, 0x4E, 0x00, 0x00, 0x4E],
       [0x40, 0x00, 0x46, 0x00, 0x00, 0x46]] ∧
    (((Emitter.construct true true [0x40, 0x00, 0x53, 2, 0, 0, 0, 0x55]).run true
        [(Call.turnOnXRay, [0x40, 0x00, 0x4E, 0, 0, 0x4E])]).turnOffXRay true
        []).m_pTimerCheckConnection.active = true :=
  ⟨(turnOffXRay_exchange true true [0x40, 0x00, 0x53, 2, 0, 0, 0, 0x55]
      [(Call.turnOnXRay, [0x40, 0x00, 0x4E, 0, 0, 0x4E])]
      ((Emitter.construct true true [0x40, 0x00, 0x53, 2, 0, 0, 0, 0x55]).run true
        [(Call.turnOnXRay, [0x40, 0x00, 0x4E, 0, 0, 0x4E])])
      [] rfl (by decide) (by decide)).1,
   (turnOffXRay_exchange true true [0x40, 0x00, 0x53, 2, 0, 0, 0, 0x55]
      [(Call.turnOnXRay, [0x40, 0x00, 0x4E, 0, 0, 0x4E])]
      ((Emitter.construct true true [0x40, 0x00, 0x53, 2, 0, 0, 0, 0x55]).run true
        [(Call.turnOnXRay, [0x40, 0x00, 0x4E, 0, 0, 0x4E])])
      [] rfl (by decide) (by decide)).2.2 (by decide)⟩

namespace Emitter

/-- An exchange writes no qDebug line. -/
theorem writeAndRead_debug (sc : Bool) (e : Emitter) (com : Command) (y1 y2 : Nat)
    (m : Option (List Nat)) (incoming : QByteArray) :
    (e.writeAndRead sc com y1 y2 m incoming).1.debug = e.debug := by
  by_cases h : e.m_pSerialPort.isOpen = true <;> simp [writeAndRead, h]

/-- The qDebug lines of commandS. -/
theorem commandS_debug (sc : Bool) (e : Emitter) (incoming : QByteArray) :
    (e.commandS sc incoming).1.debug =
      e.debug ++
        (if (e.writeAndRead sc Command.S 0 0 none incoming).2.length = 8 then
          crcWarning sc (e.writeAndRead sc Command.S 0 0 none incoming).2 ++
            (if headerMatches sc (e.writeAndRead sc Command.S 0 0 none incoming).2 Command.S 2
              = true
             then statusLines sc (e.writeAndRead sc Command.S 0 0 none incoming).2 else [])
         else [Msg.answerUnexpected]) := by
  unfold commandS
  simp only []
  split <;> rename_i h
  · split <;> rename_i hh
    · simp [qDebug, writeAndRead_debug, hh]
    · simp [qDebug, writeAndRead_debug, hh]
  · simp [qDebug, writeAndRead_debug]

end Emitter

/-- C13: for every accepted 8-byte status response the outcome is read from
frame byte 5, the state, and frame byte 6, the fault: after the line of the
checksum comparison, if any, commandS reports the state that the table
0x00 OK, 0x01 XRAY_ON, 0x02 XRAY_STARTING, 0x03 XRAY_TRAIN, 0x04 COOLING gives
for byte 5 and then the fault that the table 0x00 NO_ERROR,
0x01 XRAY_CONTROL_ERROR, 0x02 MODE_ERROR, 0x03 VOLTAGE_ERROR,
0x04 CURRENT_ERROR, 0x05 PROTECTIVE_BOX_ERROR, 0x06 LOW_SUPPLY_VOLTAGE,
0x07 DISCONNECTION, 0x08 OVERHEAT gives for byte 6; the payload 0x01, 0x07
gives XRAY_ON and DISCONNECTION. -/
theorem status_outcome_from_tables (signedChar : Bool) (e : Emitter) (incoming : QByteArray)
    (state fault : Nat) (hbytes : IsBytes incoming)
    (haccepted : (e.commandS signedChar incoming).2 = true)
    (hstate : incoming[5]? = some state) (hfault : incoming[6]? = some fault) :
    (e.commandS signedChar incoming).1.debug =
      e.debug ++ crcWarning signedChar incoming ++
        ((MessageCommandS.ofCode state).map Msg.message).toList ++
        ((ErrorCommandS.ofCode fault).map Msg.error).toList ∧
    (MessageCommandS.ofCode 0x00 = some MessageCommandS.OK ∧
     MessageCommandS.ofCode 0x01 = some MessageCommandS.XRAY_ON ∧
     MessageCommandS.ofCode 0x02 = some MessageCommandS.XRAY_STARTING ∧
     MessageCommandS.ofCode 0x03 = some MessageCommandS.XRAY_TRAIN ∧
     MessageCommandS.ofCode 0x04 = some MessageCommandS.COOLING) ∧
    (ErrorCommandS.ofCode 0x00 = some ErrorCommandS.NO_ERROR ∧
     ErrorCommandS.ofCode 0x01 = some ErrorCommandS.XRAY_CONTROL_ERROR ∧
     ErrorCommandS.ofCode 0x02 = some ErrorCommandS.MODE_ERROR ∧
     ErrorCommandS.ofCode 0x03 = some ErrorCommandS.VOLTAGE_ERROR ∧
     ErrorCommandS.ofCode 0x04 = some ErrorCommandS.CURRENT_ERROR ∧
     ErrorCommandS.ofCode 0x05 = some ErrorCommandS.PROTECTIVE_BOX_ERROR ∧
     ErrorCommandS.ofCode 0x06 = some ErrorCommandS.LOW_SUPPLY_VOLTAGE ∧
     ErrorCommandS.ofCode 0x07 = some ErrorCommandS.DISCONNECTION ∧
     ErrorCommandS.ofCode 0x08 = some ErrorCommandS.OVERHEAT) := by
  refine ⟨?_, by decide, by decide⟩
  rw [Emitter.commandS_snd] at haccepted
  simp only [Bool.and_eq_true, decide_eq_true_eq] at haccepted
  obtain ⟨hl, hh⟩ := haccepted
  have hrecv : (e.writeAndRead signedChar Command.S 0 0 none incoming).2 = incoming := by
    rw [Emitter.writeAndRead_snd] at hl ⊢
    split
    · rfl
    · rename_i hc
      rw [if_neg hc] at hl
      simp at hl
  rw [Emitter.commandS_debug, if_pos hl, if_pos hh, hrecv]
  have hs : state < 256 := hbytes state (List.getElem?_mem hstate)
  have hf : fault < 256 := hbytes fault (List.getElem?_mem hfault)
  simp only [statusLines, List.getD_eq_getElem?_getD, hstate, hfault, Option.getD_some,
    asQuint8_char signedChar state hs, asQuint8_char signedChar fault hf, List.append_assoc]

theorem status_outcome_from_tables_witness :
    ((Emitter.construct true true [0x40, 0x00, 0x53, 2, 0, 0, 0, 0x55]).commandS true
        [0x40, 0x00, 0x53, 2, 0, 0x01, 0x07, 0x5D]).1.debug =
      [Msg.message MessageCommandS.OK, Msg.error ErrorCommandS.NO_ERROR, Msg.emitterConnected,
       Msg.message MessageCommandS.XRAY_ON, Msg.error ErrorCommandS.DISCONNECTION] :=
  (status_outcome_from_tables true
    (Emitter.construct true true [0x40, 0x00, 0x53, 2, 0, 0, 0, 0x55])
    [0x40, 0x00, 0x53, 2, 0, 0x01, 0x07, 0x5D] 0x01 0x07 (by decide) (by decide) rfl rfl).1

/-- The word commandP decodes from two octets lo, hi: lo + 256 * hi where plain
char is unsigned or lo is below 0x80, and 256 less (modulo 65536) where plain
char is signed and lo is 0x80 or above. -/
theorem decodeWord_eq (sc : Bool) (d : QByteArray) (i lo hi : Nat)
    (hlo : d[i]? = some lo) (hhi : d[i + 1]? = some hi) (hlo256 : lo < 256) (hhi256 : hi < 256) :
    decodeWord sc d i =
      if sc = true ∧ 128 ≤ lo then (lo + 256 * hi + 65280) % 65536 else lo + 256 * hi := by
  simp only [decodeWord, List.getD_eq_getElem?_getD, hlo, hhi, Option.getD_some, asQuint16,
    charToInt]
  cases sc
  · simp
    omega
  · simp only [Bool.true_and, decide_eq_true_eq, true_and]
    by_cases h1 : 128 ≤ lo <;> by_cases h2 : 128 ≤ hi <;> simp [h1, h2] <;> omega

/-- C14 (decoding of an accepted set-parameters response), evaluated where
plain char is signed: the accepted 14-byte response with payload
80 00, 00 80, FF FF, 7F 7F decodes to 65408, 32768, 65279, 32639, while
low + 256 * high gives 128, 32768, 65535, 32639.  The two words whose low
byte is 0x80 or above come out 256 too small. -/
theorem commandP_decodes_high_low_byte_wrong :
    ((Emitter.construct true true [0x40, 0x00, 0x53, 2, 0, 0, 0, 0x55]).commandP true
        1000 50 30 60
        [0x40, 0x00, 0x50, 8, 0, 0x80, 0x00, 0x00, 0x80, 0xFF, 0xFF, 0x7F, 0x7F, 0x54]).2 =
      some ⟨65408, 32768, 65279, 32639⟩ ∧
    ((Emitter.construct true true [0x40, 0x00, 0x53, 2, 0, 0, 0, 0x55]).commandP true
        1000 50 30 60
        [0x40, 0x00, 0x50, 8, 0, 0x80, 0x00, 0x00, 0x80, 0xFF, 0xFF, 0x7F, 0x7F, 0x54]).2 ≠
      some ⟨0x80 + 256 * 0x00, 0x00 + 256 * 0x80, 0xFF + 256 * 0xFF, 0x7F + 256 * 0x7F⟩ := by
  decide

/-- The checksum loop over indices 1 .. n adds up the n bytes after byte 0. -/
theorem crc_loop_eq_sum (sc : Bool) (d : QByteArray) (n : Nat) :
    (List.range' 1 n).foldl
      (fun crc i => asQuint8 ((crc : Int) + charToInt sc (d.getD i 0))) 0 =
      ((d.drop 1).take n).sum % 256 := by
  induction n with
  | zero => simp
  | succ n ih =>
    rw [List.range'_1_concat, List.foldl_append, ih]
    simp only [List.foldl_cons, List.foldl_nil]
    rw [asQuint8_add_char, List.take_succ, List.getElem?_drop, List.getD_eq_getElem?_getD]
    simp only [List.sum_append]
    cases h : d[1 + n]? with
    | none => simp
    | some b => simp

/-- The checksum recomputed on receipt is the sum modulo 256 of bytes 1 to
size - 2. -/
theorem receivedCrc_eq_sum (sc : Bool) (d : QByteArray) :
    receivedCrc sc d = ((d.drop 1).take (d.length - 2)).sum % 256 := by
  unfold receivedCrc
  exact crc_loop_eq_sum sc d (d.length - 2)

/-- The trailing byte cast to quint8 is the last octet. -/
theorem trailingByte_eq (sc : Bool) (d : QByteArray) (last : Nat) (hb : IsBytes d)
    (hlast : d.getLast? = some last) : trailingByte sc d = last := by
  rw [List.getLast?_eq_getElem?] at hlast
  have hl : last < 256 := hb last (List.getElem?_mem hlast)
  simp only [trailingByte, List.getD_eq_getElem?_getD, hlast, Option.getD_some]
  exact asQuint8_char sc last hl

/-- The only line the checksum comparison can write. -/
theorem mem_crcWarning (sc : Bool) (d : QByteArray) (a b : Nat) :
    Msg.crcDoesNotMatch a b ∈ crcWarning sc d ↔
      a = receivedCrc sc d ∧ b = trailingByte sc d ∧ a ≠ b := by
  unfold crcWarning
  simp only []
  split <;> rename_i h
  · simp only [List.mem_singleton, Msg.crcDoesNotMatch.injEq]
    constructor
    · rintro ⟨rfl, rfl⟩
      exact ⟨rfl, rfl, h⟩
    · rintro ⟨h1, h2, _⟩
      exact ⟨h1, h2⟩
  · simp only [List.not_mem_nil, false_iff]
    rintro ⟨rfl, rfl, h3⟩
    exact h h3

/-- The status lines hold no checksum warning. -/
theorem not_mem_statusLines (sc : Bool) (d : QByteArray) (a b : Nat) :
    Msg.crcDoesNotMatch a b ∉ statusLines sc d := by
  unfold statusLines
  cases MessageCommandS.ofCode (asQuint8 (charToInt sc (d.getD 5 0))) <;>
    cases ErrorCommandS.ofCode (asQuint8 (charToInt sc (d.getD 6 0))) <;> simp

namespace Emitter

/-- The qDebug lines of commandP. -/
theorem commandP_debug (sc : Bool) (e : Emitter) (volt curr workTime coolTime : Nat)
    (incoming : QByteArray) :
    ∃ tail : List Msg, (∀ a b, Msg.crcDoesNotMatch a b ∉ tail) ∧
      (e.commandP sc volt curr workTime coolTime incoming).1.debug =
        e.debug ++
          (if (e.writeAndRead sc Command.P 8 0
                (some (parameterBytes volt curr workTime coolTime)) incoming).2.length = 14 then
            crcWarning sc (e.writeAndRead sc Command.P 8 0
                (some (parameterBytes volt curr workTime coolTime)) incoming).2 ++ tail
           else [Msg.answerUnexpected]) := by
  unfold commandP
  simp only []
  split <;> rename_i h
  · split <;> rename_i hh
    · refine ⟨[Msg.data
        (decodeWord sc (e.writeAndRead sc Command.P 8 0
          (some (parameterBytes volt curr workTime coolTime)) incoming).2 5)
        (decodeWord sc (e.writeAndRead sc Command.P 8 0
          (some (parameterBytes volt curr workTime coolTime)) incoming).2 7)
        (decodeWord sc (e.writeAndRead sc Command.P 8 0
          (some (parameterBytes volt curr workTime coolTime)) incoming).2 9)
        (decodeWord sc (e.writeAndRead sc Command.P 8 0
          (some (parameterBytes volt curr workTime coolTime)) incoming).2 11)], by simp, ?_⟩
      simp [qDebug, writeAndRead_debug]
    · exact ⟨[], by simp, by simp [qDebug, writeAndRead_debug]⟩
  · exact ⟨[], by simp, by simp [qDebug, writeAndRead_debug]⟩

/-- The qDebug lines of commandN. -/
theorem commandN_debug (sc : Bool) (e : Emitter) (incoming : QByteArray) :
    ∃ tail : List Msg, (∀ a b, Msg.crcDoesNotMatch a b ∉ tail) ∧
      (e.commandN sc incoming).debug =
        e.debug ++
          (if (e.writeAndRead sc Command.N 0 0 none incoming).2.length = 6 then
            crcWarning sc (e.writeAndRead sc Command.N 0 0 none incoming).2 ++ tail
           else [Msg.answerUnexpected]) := by
  unfold commandN
  simp only []
  split <;> rename_i h
  · split <;> rename_i hh
    · exact ⟨[Msg.xrayIncluded], by simp, by simp [qDebug, writeAndRead_debug]⟩
    · exact ⟨[], by simp, by simp [qDebug, writeAndRead_debug]⟩
  · exact ⟨[], by simp, by simp [qDebug, writeAndRead_debug]⟩

/-- The qDebug lines of commandF. -/
theorem commandF_debug (sc : Bool) (e : Emitter) (incoming : QByteArray) :
    ∃ tail : List Msg, (∀ a b, Msg.crcDoesNotMatch a b ∉ tail) ∧
      (e.commandF sc incoming).debug =
        e.debug ++
          (if (e.writeAndRead sc Command.F 0 0 none incoming).2.length = 6 then
            crcWarning sc (e.writeAndRead sc Command.F 0 0 none incoming).2 ++ tail
           else [Msg.answerUnexpected]) := by
  unfold commandF
  simp only []
  split <;> rename_i h
  · split <;> rename_i hh
    · exact ⟨[Msg.xrayTurnedOff], by simp, by simp [qDebug, writeAndRead_debug]⟩
    · exact ⟨[], by simp, by simp [qDebug, writeAndRead_debug]⟩
  · exact ⟨[], by simp, by simp [qDebug, writeAndRead_debug]⟩

end Emitter

/-- Membership of a checksum warning in the new lines of a command, given the
shape of its qDebug output. -/
theorem warning_mem_new_lines (sc : Bool) (old new tail : List Msg) (d : QByteArray)
    (a b : Nat) (htail : ∀ a b, Msg.crcDoesNotMatch a b ∉ tail)
    (hnew : new = old ++ (crcWarning sc d ++ tail)) :
    Msg.crcDoesNotMatch a b ∈ new.drop old.length ↔
      a = receivedCrc sc d ∧ b = trailingByte sc d ∧ a ≠ b := by
  rw [hnew, List.drop_left, List.mem_append, mem_crcWarning]
  constructor
  · rintro (h | h)
    · exact h
    · exact absurd h (htail a b)
  · intro h
    exact Or.inl h

/-- C15: for each of the four commands and every response of the length the
command expects (8 for commandS, 14 for commandP, 6 for commandN and commandF),
the checksum recomputed on receipt is the sum modulo 256 of response bytes 1
to size - 2, the trailing byte is compared as an unsigned 8-bit value, and the
command writes the line of the checksum mismatch, with these two values, if
and only if they differ. -/
theorem received_checksum_and_warning (signedChar : Bool) (e : Emitter)
    (volt curr workTime coolTime : Nat) (r : QByteArray) (last : Nat)
    (hopen : e.m_pSerialPort.isOpen = true) (hbytes : IsBytes r)
    (hlast : r.getLast? = some last) :
    receivedCrc signedChar r = ((r.drop 1).take (r.length - 2)).sum % 256 ∧
    trailingByte signedChar r = last ∧
    (r.length = 8 → ∀ a b,
      (Msg.crcDoesNotMatch a b ∈ (e.commandS signedChar r).1.debug.drop e.debug.length ↔
        a = ((r.drop 1).take (r.length - 2)).sum % 256 ∧ b = last ∧ a ≠ b)) ∧
    (r.length = 14 → ∀ a b,
      (Msg.crcDoesNotMatch a b ∈
          (e.commandP signedChar volt curr workTime coolTime r).1.debug.drop e.debug.length ↔
        a = ((r.drop 1).take (r.length - 2)).sum % 256 ∧ b = last ∧ a ≠ b)) ∧
    (r.length = 6 → ∀ a b,
      (Msg.crcDoesNotMatch a b ∈ (e.commandN signedChar r).debug.drop e.debug.length ↔
        a = ((r.drop 1).take (r.length - 2)).sum % 256 ∧ b = last ∧ a ≠ b)) ∧
    (r.length = 6 → ∀ a b,
      (Msg.crcDoesNotMatch a b ∈ (e.commandF signedChar r).debug.drop e.debug.length ↔
        a = ((r.drop 1).take (r.length - 2)).sum % 256 ∧ b = last ∧ a ≠ b)) := by
  have hcrc := receivedCrc_eq_sum signedChar r
  have htr := trailingByte_eq signedChar r last hbytes hlast
  have hrecv : ∀ (com : Command) (y1 y2 : Nat) (m : Option (List Nat)),
      (e.writeAndRead signedChar com y1 y2 m r).2 = r := by
    intro com y1 y2 m
    rw [Emitter.writeAndRead_snd, if_pos hopen]
  refine ⟨hcrc, htr, ?_, ?_, ?_, ?_⟩
  · intro hl a b
    have hd := Emitter.commandS_debug signedChar e r
    rw [hrecv, if_pos hl] at hd
    rw [← hcrc, ← htr]
    refine warning_mem_new_lines signedChar e.debug _ _ r a b ?_ hd
    intro a b
    split
    · exact not_mem_statusLines signedChar r a b
    · simp
  · intro hl a b
    obtain ⟨tail, htail, hd⟩ := Emitter.commandP_debug signedChar e volt curr workTime coolTime r
    rw [hrecv, if_pos hl] at hd
    rw [← hcrc, ← htr]
    exact warning_mem_new_lines signedChar e.debug _ tail r a b htail hd
  · intro hl a b
    obtain ⟨tail, htail, hd⟩ := Emitter.commandN_debug signedChar e r
    rw [hrecv, if_pos hl] at hd
    rw [← hcrc, ← htr]
    exact warning_mem_new_lines signedChar e.debug _ tail r a b htail hd
  · intro hl a b
    obtain ⟨tail, htail, hd⟩ := Emitter.commandF_debug signedChar e r
    rw [hrecv, if_pos hl] at hd
    rw [← hcrc, ← htr]
    exact warning_mem_new_lines signedChar e.debug _ tail r a b htail hd

theorem received_checksum_and_warning_witness :
    receivedCrc true [0x40, 0x00, 0x53, 2, 0, 0x01, 0x07, 0xFF] = 0x5D ∧
    trailingByte true [0x40, 0x00, 0x53, 2, 0, 0x01, 0x07, 0xFF] = 0xFF ∧
    Msg.crcDoesNotMatch 0x5D 0xFF ∈
      ((Emitter.construct true true [0x40, 0x00, 0x53, 2, 0, 0, 0, 0x55]).commandS true
        [0x40, 0x00, 0x53, 2, 0, 0x01, 0x07, 0xFF]).1.debug.drop
        (Emitter.construct true true [0x40, 0x00, 0x53, 2, 0, 0, 0, 0x55]).debug.length :=
  ⟨(received_checksum_and_warning true
      (Emitter.construct true true [0x40, 0x00, 0x53, 2, 0, 0, 0, 0x55]) 1000 50 30 60
      [0x40, 0x00, 0x53, 2, 0, 0x01, 0x07, 0xFF] 0xFF (by decide) (by decide) rfl).1,
   (received_checksum_and_warning true
      (Emitter.construct true true [0x40, 0x00, 0x53, 2, 0, 0, 0, 0x55]) 1000 50 30 60
      [0x40, 0x00, 0x53, 2, 0, 0x01, 0x07, 0xFF] 0xFF (by decide) (by decide) rfl).2.1,
   ((received_checksum_and_warning true
      (Emitter.construct true true [0x40, 0x00, 0x53, 2, 0, 0, 0, 0x55]) 1000 50 30 60
      [0x40, 0x00, 0x53, 2, 0, 0x01, 0x07, 0xFF] 0xFF (by decide) (by decide) rfl).2.2.1
      rfl 0x5D 0xFF).mpr ⟨by decide, rfl, by decide⟩⟩

/-- Overwriting byte 1 leaves every other byte as it was. -/
theorem getD_set_one (r : QByteArray) (b i : Nat) (hi : i ≠ 1) :
    (r.set 1 b).getD i 0 = r.getD i 0 := by
  simp only [List.getD_eq_getElem?_getD]
  rw [List.getElem?_set_ne (Ne.symm hi)]

/-- C16: response validation never looks at the device-id byte.  Replacing
byte 1 of a response by any value changes none of the outcomes: commandS
returns the same boolean, commandP decodes the same values or none in both
cases, commandN and commandF leave the heartbeat timer in the same running
state.  So a status response carrying any device id, not only 0x00, is
accepted. -/
theorem device_id_never_checked (signedChar : Bool) (e : Emitter)
    (volt curr workTime coolTime : Nat) (r : QByteArray) (dev : Nat)
    (hopen : e.m_pSerialPort.isOpen = true) :
    (e.commandS signedChar (r.set 1 dev)).2 = (e.commandS signedChar r).2 ∧
    (e.commandP signedChar volt curr workTime coolTime (r.set 1 dev)).2 =
      (e.commandP signedChar volt curr workTime coolTime r).2 ∧
    (e.commandN signedChar (r.set 1 dev)).m_pTimerCheckConnection.active =
      (e.commandN signedChar r).m_pTimerCheckConnection.active ∧
    (e.commandF signedChar (r.set 1 dev)).m_pTimerCheckConnection.active =
      (e.commandF signedChar r).m_pTimerCheckConnection.active ∧
    (∀ state fault crc : Nat,
      (e.commandS signedChar [0x40, dev, 0x53, 2, 0, state, fault, crc]).2 = true) := by
  have hrecv : ∀ (com : Command) (y1 y2 : Nat) (m : Option (List Nat)) (d : QByteArray),
      (e.writeAndRead signedChar com y1 y2 m d).2 = d := by
    intro com y1 y2 m d
    rw [Emitter.writeAndRead_snd, if_pos hopen]
  have hdr : ∀ (com : Command) (len : Nat),
      headerMatches signedChar (r.set 1 dev) com len = headerMatches signedChar r com len := by
    intro com len
    apply headerMatches_congr <;> exact getD_set_one r dev _ (by decide)
  have hword : ∀ i, 2 ≤ i →
      decodeWord signedChar (r.set 1 dev) i = decodeWord signedChar r i := by
    intro i hi
    exact decodeWord_congr signedChar _ _ i (getD_set_one r dev i (by omega))
      (getD_set_one r dev (i + 1) (by omega))
  refine ⟨?_, ?_, ?_, ?_, ?_⟩
  · rw [Emitter.commandS_snd, Emitter.commandS_snd, hrecv, hrecv, hdr, List.length_set]
  · rw [Emitter.commandP_snd, Emitter.commandP_snd, hrecv, hrecv, hdr, List.length_set,
      hword 5 (by decide), hword 7 (by decide), hword 9 (by decide), hword 11 (by decide)]
  · rw [Emitter.commandN_active, Emitter.commandN_active, hrecv, hrecv, hdr, List.length_set]
  · rw [Emitter.commandF_active, Emitter.commandF_active, hrecv, hrecv, hdr, List.length_set]
  · intro state fault crc
    rw [Emitter.commandS_snd, hrecv]
    simp [headerMatches, charToInt, asQuint8, STARTBYTE, Command.code]

theorem device_id_never_checked_witness :
    ((Emitter.construct true true [0x40, 0x00, 0x53, 2, 0, 0, 0, 0x55]).commandS true
        [0x40, 0x7F, 0x53, 2, 0, 0, 0, 0x55]).2 = true ∧
    ((Emitter.construct true true [0x40, 0x00, 0x53, 2, 0, 0, 0, 0x55]).commandN true
        ([0x40, 0x00, 0x4E, 0, 0, 0x4E].set 1 0xFF)).m_pTimerCheckConnection.active =
      ((Emitter.construct true true [0x40, 0x00, 0x53, 2, 0, 0, 0, 0x55]).commandN true
        [0x40, 0x00, 0x4E, 0, 0, 0x4E]).m_pTimerCheckConnection.active :=
  ⟨(device_id_never_checked true
      (Emitter.construct true true [0x40, 0x00, 0x53, 2, 0, 0, 0, 0x55]) 1000 50 30 60
      [0x40, 0x00, 0x4E, 0, 0, 0x4E] 0x7F (by decide)).2.2.2.2 0 0 0x55,
   (device_id_never_checked true
      (Emitter.construct true true [0x40, 0x00, 0x53, 2, 0, 0, 0, 0x55]) 1000 50 30 60
      [0x40, 0x00, 0x4E, 0, 0, 0x4E] 0xFF (by decide)).2.2.1⟩

/-- C17: setFeatures takes int arguments and reduces each modulo 65536 at the
call of commandP, rejecting none.  For all ints the call does what it does for
the four residues modulo 65536, and on a connected emitter (any state reached
from the constructor in which isConnected is true) it writes the
set-parameters frame of the residues; 66536 and -64536 are both sent as
1000. -/
theorem setFeatures_reduces_modulo_65536 (signedChar openOk : Bool) (probe : QByteArray)
    (calls : List (Call × QByteArray)) (e : Emitter)
    (voltage current workTime coolTime : Int) (incoming : QByteArray)
    (he : e = (Emitter.construct signedChar openOk probe).run signedChar calls)
    (hconn : e.isConnected = true) :
    e.setFeatures signedChar voltage current workTime coolTime incoming =
      e.setFeatures signedChar (voltage % 65536) (current % 65536) (workTime % 65536)
        (coolTime % 65536) incoming ∧
    (e.setFeatures signedChar voltage current workTime coolTime incoming).m_pSerialPort.written =
      e.m_pSerialPort.written ++
        [[0x40, 0x00, 0x50, 8, 0] ++
          [(voltage % 65536).toNat % 256, (voltage % 65536).toNat / 256,
            (current % 65536).toNat % 256, (current % 65536).toNat / 256,
            (workTime % 65536).toNat % 256, (workTime % 65536).toNat / 256,
            (coolTime % 65536).toNat % 256, (coolTime % 65536).toNat / 256] ++
          [(0x50 + 8 + 0 +
            ((voltage % 65536).toNat % 256 + (voltage % 65536).toNat / 256 +
              (current % 65536).toNat % 256 + (current % 65536).toNat / 256 +
              (workTime % 65536).toNat % 256 + (workTime % 65536).toNat / 256 +
              (coolTime % 65536).toNat % 256 + (coolTime % 65536).toNat / 256)) % 256]] ∧
    e.setFeatures signedChar 66536 current workTime coolTime incoming =
      e.setFeatures signedChar 1000 current workTime coolTime incoming ∧
    e.setFeatures signedChar (-64536) current workTime coolTime incoming =
      e.setFeatures signedChar 1000 current workTime coolTime incoming := by
  have hopen : e.m_pSerialPort.isOpen = true := by
    subst he
    exact Emitter.reachable_connected_isOpen signedChar openOk probe calls hconn
  have hmod : ∀ x : Int, Emitter.intToQuint16 (x % 65536) = Emitter.intToQuint16 x := by
    intro x
    simp only [Emitter.intToQuint16, asQuint16]
    rw [Int.emod_emod_of_dvd x (dvd_refl _)]
  have hlt : ∀ x : Int, (x % 65536).toNat < 65536 := by
    intro x
    omega
  refine ⟨?_, ?_, rfl, rfl⟩
  · simp only [Emitter.setFeatures, hmod]
  · simp only [Emitter.setFeatures]
    rw [if_pos hconn, Emitter.commandP_port, Emitter.writeAndRead_written _ _ _ _ _ _ _ hopen]
    simp only [Emitter.intToQuint16, asQuint16]
    rw [commandP_frame signedChar _ _ _ _ (hlt voltage) (hlt current) (hlt workTime)
      (hlt coolTime)]
    rfl

theorem setFeatures_reduces_modulo_65536_witness :
    ((Emitter.construct true true [0x40, 0x00, 0x53, 2, 0, 0, 0, 0x55]).setFeatures true
        66536 (-65486) 65566 60 []).m_pSerialPort.written =
      [[0x40, 0x00, 0x53, 0, 0, 0x53],
       [0x40, 0x00, 0x50, 8, 0, 0xE8, 0x03, 0x32, 0x00, 0x1E, 0x00, 0x3C, 0x00, 0xCF]] :=
  (setFeatures_reduces_modulo_65536 true true [0x40, 0x00, 0x53, 2, 0, 0, 0, 0x55] []
    (Emitter.construct true true [0x40, 0x00, 0x53, 2, 0, 0, 0, 0x55])
    66536 (-65486) 65566 60 [] rfl (by decide)).2.1

/-- C18: the connection flag is decided once, at construction.  After every
sequence of setFeatures, turnOnXRay, turnOffXRay calls and heartbeat ticks, with
any responses (the empty one included), isConnected returns what it returned
right after construction. -/
theorem isConnected_fixed_at_construction (signedChar openOk : Bool) (probe : QByteArray)
    (calls : List (Call × QByteArray)) :
    ((Emitter.construct signedChar openOk probe).run signedChar calls).isConnected =
      (Emitter.construct signedChar openOk probe).isConnected := by
  unfold Emitter.isConnected
  rw [Emitter.run_isConnected]

end XRay
